import Mathlib

/-!
Verification of the Solo-Leveling fitness tracker backend.

Shallow embedding of `src/backend/server.py` (the progression / reward
state machine: Progression Engine, Quest Lifecycle, Achievement Evaluator)
and proofs about the claims of the specification.

Modelling conventions:
* A Mongo user document becomes a `User` structure; each request handler
  becomes a pure function from the current state (plus the request
  arguments and the ambient inputs it reads: today's date, the freshly
  generated uuid, the index drawn by `random.choice`) to the next state,
  with fallible handlers returning `Except String`.
* Calendar dates (`%Y-%m-%d` strings in Python) are modelled as day
  indices (`Nat`); `yesterday = today - 1`.
* Python floats are modelled by the exact rational computations they
  round: `int(150 * 1.8 ** (level - 1))` as `150 * 9^(level-1) / 5^(level-1)`
  (Nat division = floor), `int(exp * 0.15)` as `15 * exp / 100`, and the
  catalog multipliers (one decimal digit each) as integers scaled by 10.
* Catalog entries keep exactly the fields some handler reads; display-only
  fields (names, Spanish descriptions, stat bonuses of shadows, mission
  requirement payloads — consulted only by read-only listing endpoints)
  are omitted.
-/

/-- Python `str.startswith`: `charsStart s p` is true when the char list
`p` is an initial segment of `s`. -/
def charsStart : List Char → List Char → Bool
  | _, [] => true
  | [], _ :: _ => false
  | c :: cs, d :: ds => c == d && charsStart cs ds

/-- `idStarts s p` models Python `s.startswith(p)`. -/
def idStarts (s p : String) : Bool := charsStart s.data p.data

/-- Mongo `$addToSet`: append the element unless it is already present. -/
def addToSet (l : List String) (x : String) : List String :=
  if l.contains x then l else l ++ [x]

-- ============== PROGRESSION ENGINE ==============

/-- `calculate_rank` from server.py: the deterministic step function
level → rank. -/
def calculate_rank (level : Nat) : String :=
  if level ≥ 80 then "S"
  else if level ≥ 60 then "A"
  else if level ≥ 40 then "B"
  else if level ≥ 25 then "C"
  else if level ≥ 10 then "D"
  else "E"

/-- `calculate_exp_needed` from server.py: Python computes
`int(150 * (1.8 ** (level - 1)))`; modelled exactly as
`⌊150 · (9/5)^(level-1)⌋` over ℕ. -/
def calculate_exp_needed (level : Nat) : Nat :=
  150 * 9 ^ (level - 1) / 5 ^ (level - 1)

/-- `get_training_reps` from server.py: linear interpolation from
`base_reps` at level 1 to `max_reps` at level ≥ 50; Python computes
`int(base + (max - base) * (level - 1) / 49.0)`, modelled as the exact
floor. -/
def get_training_reps (level base_reps max_reps : Nat) : Nat :=
  if level ≥ 50 then max_reps
  else base_reps + (max_reps - base_reps) * (level - 1) / 49

-- ============== CASCADING LEVEL-UP LOOP ==============

/-- Fuel-indexed unfolding of the `while new_exp >= exp_needed` loop in
`complete_quest`.  Each iteration consumes at least
`calculate_exp_needed level ≥ 150` experience, so `fuel = exp` always
suffices (`applyExpGainAux_fuel_irrel` below); the fuel is only there to
make the recursion structural. -/
def applyExpGainAux : Nat → Nat → Nat → Nat × Nat × Nat
  | 0, exp, level => (exp, level, 0)
  | fuel + 1, exp, level =>
    if calculate_exp_needed level ≤ exp then
      let r := applyExpGainAux fuel (exp - calculate_exp_needed level) (level + 1)
      (r.1, r.2.1, r.2.2 + 3)
    else (exp, level, 0)

/-- The level-up resolution loop of `complete_quest` (server.py lines
835-839): while `exp ≥ calculate_exp_needed level`, subtract the
threshold, increment the level and grant 3 stat points.  Returns
`(new_exp, new_level, stat_points_gained)`. -/
def applyExpGain (exp level : Nat) : Nat × Nat × Nat :=
  applyExpGainAux exp exp level

theorem calculate_exp_needed_pos (level : Nat) : 0 < calculate_exp_needed level := by
  have h9 : (5 : Nat) ^ (level - 1) ≤ 9 ^ (level - 1) :=
    Nat.pow_le_pow_left (by norm_num) _
  have h : 5 ^ (level - 1) ≤ 150 * 9 ^ (level - 1) :=
    le_trans h9 (Nat.le_mul_of_pos_left _ (by norm_num))
  exact Nat.div_pos h (Nat.pos_pow_of_pos _ (by norm_num))

theorem applyExpGainAux_fuel_irrel (f : Nat) :
    ∀ f' e l, e ≤ f → e ≤ f' → applyExpGainAux f e l = applyExpGainAux f' e l := by
  induction f with
  | zero =>
    intro f' e l he he'
    interval_cases e
    cases f' with
    | zero => rfl
    | succ g =>
      simp only [applyExpGainAux]
      rw [if_neg]
      exact Nat.not_le.mpr (calculate_exp_needed_pos l)
  | succ g ih =>
    intro f' e l he he'
    cases f' with
    | zero =>
      interval_cases e
      simp only [applyExpGainAux]
      rw [if_neg]
      exact Nat.not_le.mpr (calculate_exp_needed_pos l)
    | succ g' =>
      simp only [applyExpGainAux]
      by_cases hc : calculate_exp_needed l ≤ e
      · rw [if_pos hc, if_pos hc]
        have hpos := calculate_exp_needed_pos l
        have hsub : e - calculate_exp_needed l ≤ g := by omega
        have hsub' : e - calculate_exp_needed l ≤ g' := by omega
        rw [ih g' (e - calculate_exp_needed l) (l + 1) hsub hsub']
      · rw [if_neg hc, if_neg hc]

/-- The loop takes a step exactly when the threshold is reached. -/
theorem applyExpGain_step (e l : Nat) (h : calculate_exp_needed l ≤ e) :
    applyExpGain e l =
      (let r := applyExpGain (e - calculate_exp_needed l) (l + 1)
       (r.1, r.2.1, r.2.2 + 3)) := by
  have hpos := calculate_exp_needed_pos l
  unfold applyExpGain
  cases e with
  | zero => omega
  | succ n =>
    simp only [applyExpGainAux]
    rw [if_pos h]
    have : n + 1 - calculate_exp_needed l ≤ n := by omega
    rw [applyExpGainAux_fuel_irrel n (n + 1 - calculate_exp_needed l)
      (n + 1 - calculate_exp_needed l) (l + 1) this le_rfl]

/-- The loop stops as soon as the experience is below the threshold. -/
theorem applyExpGain_stop (e l : Nat) (h : e < calculate_exp_needed l) :
    applyExpGain e l = (e, l, 0) := by
  unfold applyExpGain
  cases e with
  | zero => rfl
  | succ n =>
    simp only [applyExpGainAux]
    rw [if_neg (Nat.not_le.mpr h)]

theorem applyExpGainAux_lt (f : Nat) :
    ∀ e l, e ≤ f →
      (applyExpGainAux f e l).1 < calculate_exp_needed (applyExpGainAux f e l).2.1 := by
  induction f with
  | zero =>
    intro e l he
    interval_cases e
    exact calculate_exp_needed_pos l
  | succ g ih =>
    intro e l he
    simp only [applyExpGainAux]
    by_cases hc : calculate_exp_needed l ≤ e
    · rw [if_pos hc]
      have hpos := calculate_exp_needed_pos l
      exact ih (e - calculate_exp_needed l) (l + 1) (by omega)
    · rw [if_neg hc]
      exact Nat.not_le.mp hc

/-- After the cascading loop the experience is below the threshold of the
resulting level. -/
theorem applyExpGain_lt (e l : Nat) :
    (applyExpGain e l).1 < calculate_exp_needed (applyExpGain e l).2.1 :=
  applyExpGainAux_lt e e l le_rfl

theorem calculate_exp_needed_succ_le (k : Nat) :
    calculate_exp_needed (k + 1) ≤ calculate_exp_needed (k + 1 + 1) := by
  show 150 * 9 ^ k / 5 ^ k ≤ 150 * 9 ^ (k + 1) / 5 ^ (k + 1)
  have h1 : 150 * 9 ^ (k + 1) = 150 * 9 ^ k * 9 := by ring
  have h2 : (5 : Nat) ^ (k + 1) = 5 ^ k * 5 := by ring
  rw [h1, h2]
  calc 150 * 9 ^ k / 5 ^ k
      = 150 * 9 ^ k * 5 / (5 ^ k * 5) := by
        rw [Nat.mul_div_mul_right _ _ (by norm_num : (0:Nat) < 5)]
    _ ≤ 150 * 9 ^ k * 9 / (5 ^ k * 5) := by
        apply Nat.div_le_div_right
        exact Nat.mul_le_mul_left _ (by norm_num)

theorem calculate_exp_needed_lower (l : Nat) : 150 ≤ calculate_exp_needed (l + 1) := by
  induction l with
  | zero => decide
  | succ k ih => exact le_trans ih (calculate_exp_needed_succ_le k)

theorem calculate_exp_needed_strict (l : Nat) (h : 1 ≤ l) :
    calculate_exp_needed l < calculate_exp_needed (l + 1) := by
  obtain ⟨k, rfl⟩ : ∃ k, l = k + 1 := ⟨l - 1, by omega⟩
  have hq150 : 150 ≤ calculate_exp_needed (k + 1) := calculate_exp_needed_lower k
  set q := calculate_exp_needed (k + 1) with hq
  have hstep : (9 * q) / 5 ≤ calculate_exp_needed (k + 1 + 1) := by
    show (9 * q) / 5 ≤ 150 * 9 ^ (k + 1) / 5 ^ (k + 1)
    have h1 : 150 * 9 ^ (k + 1) = 9 * (150 * 9 ^ k) := by ring
    have h2 : (5 : Nat) ^ (k + 1) = 5 * 5 ^ k := by ring
    rw [h1, h2]
    calc (9 * q) / 5 = 9 * (150 * 9 ^ k / 5 ^ k) / 5 := by rw [hq]; rfl
      _ = 9 * (150 * 9 ^ k / 5 ^ k) * 5 ^ k / (5 * 5 ^ k) := by
          rw [Nat.mul_div_mul_right _ _ (Nat.pos_pow_of_pos k (by norm_num : (0:Nat) < 5))]
      _ ≤ 9 * (150 * 9 ^ k) / (5 * 5 ^ k) := by
          apply Nat.div_le_div_right
          calc 9 * (150 * 9 ^ k / 5 ^ k) * 5 ^ k
              = 9 * (150 * 9 ^ k / 5 ^ k * 5 ^ k) := by ring
            _ ≤ 9 * (150 * 9 ^ k) := by
                exact Nat.mul_le_mul_left _ (Nat.div_mul_le_self _ _)
  have hgt : q < (9 * q) / 5 := by
    have hsplit : (9 * q) / 5 = 4 * q / 5 + q := by
      have h9 : 9 * q = 4 * q + 5 * q := by ring
      rw [h9, Nat.add_mul_div_left _ _ (by norm_num : (0:Nat) < 5)]
    have h120 : 120 ≤ 4 * q / 5 := by
      have h600 : (600 : Nat) / 5 ≤ 4 * q / 5 := Nat.div_le_div_right (by omega)
      simpa using h600
    omega
  exact lt_of_lt_of_le hgt hstep

-- ============== DATA MODEL ==============

/-- The four named stats of a user document. -/
structure Stats where
  strength : Int
  endurance : Int
  agility : Int
  vitality : Int
deriving DecidableEq, Repr

/-- Per-difficulty dungeon completion counters (the
`dungeons_completed` sub-document, keys "E".."S"). -/
structure DungeonCounts where
  e : Nat
  d : Nat
  c : Nat
  b : Nat
  a : Nat
  s : Nat
deriving DecidableEq, Repr

/-- `dungeons_completed[rank]` (every difficulty key is always present
in the document; unknown keys cannot occur). -/
def getDungeonCount (dc : DungeonCounts) (rank : String) : Nat :=
  if rank == "E" then dc.e
  else if rank == "D" then dc.d
  else if rank == "C" then dc.c
  else if rank == "B" then dc.b
  else if rank == "A" then dc.a
  else if rank == "S" then dc.s
  else 0

/-- Mongo `$inc` on `dungeons_completed.<rank>`. -/
def incDungeonCount (dc : DungeonCounts) (rank : String) : DungeonCounts :=
  if rank == "E" then { dc with e := dc.e + 1 }
  else if rank == "D" then { dc with d := dc.d + 1 }
  else if rank == "C" then { dc with c := dc.c + 1 }
  else if rank == "B" then { dc with b := dc.b + 1 }
  else if rank == "A" then { dc with a := dc.a + 1 }
  else if rank == "S" then { dc with s := dc.s + 1 }
  else dc

/-- `user["stats"][name]` (callers guard `name` against the four valid
stat names, so the default branch is unreachable). -/
def getStat (st : Stats) (name : String) : Int :=
  if name == "strength" then st.strength
  else if name == "endurance" then st.endurance
  else if name == "agility" then st.agility
  else if name == "vitality" then st.vitality
  else 0

/-- Mongo `$inc` on `stats.<name>`. -/
def incStat (st : Stats) (name : String) (v : Int) : Stats :=
  if name == "strength" then { st with strength := st.strength + v }
  else if name == "endurance" then { st with endurance := st.endurance + v }
  else if name == "agility" then { st with agility := st.agility + v }
  else if name == "vitality" then { st with vitality := st.vitality + v }
  else st

/-- One exercise requirement inside a quest instance. -/
structure Exercise where
  name : String
  reps : Nat
  unit : String
deriving DecidableEq, Repr

/-- A punishment quest stored inline in the user document
(`punishment_quests` entries created by `fail_quest`). -/
structure PunishmentQuest where
  id : String
  name : String
  exercises : List Exercise
  exp_reward : Nat
deriving DecidableEq, Repr

/-- A persisted daily-quest document (`db.daily_quests`), restricted to
one user (the store we thread around is the acting user's collection).
Dates are day indices. -/
structure DailyQuest where
  id : String
  date : Nat
  exercises : List Exercise
  exp_reward : Nat
  gold_reward : Int
  difficulty : String
  is_completed : Bool
deriving DecidableEq, Repr

/-- The per-user Mongo document (identity fields — id, email, password
hash, hunter name, created_at — and the unused `inventory` /
`active_quests` / `guild_id` fields are omitted: no claim touches them). -/
structure User where
  level : Nat
  experience : Nat
  rank : String
  gold : Int
  title : String
  stats : Stats
  stat_points : Int
  achievements : List String
  quests_completed : Nat
  punishment_quests : List PunishmentQuest
  shadows : List String
  streak : Nat
  best_streak : Nat
  last_quest_date : Option Nat
  total_reps : Nat
  dungeons_completed : DungeonCounts
  bosses_defeated : List String
  special_missions_completed : List String
  streak_shields : Nat
  training_start_time : Option String
deriving DecidableEq, Repr

/-- The user document inserted by `register` (server.py lines 356-385). -/
def registerUser : User :=
  { level := 1
    experience := 0
    rank := "E"
    gold := 100
    title := "Novato"
    stats := { strength := 10, endurance := 10, agility := 10, vitality := 10 }
    stat_points := 0
    achievements := []
    quests_completed := 0
    punishment_quests := []
    shadows := []
    streak := 0
    best_streak := 0
    last_quest_date := none
    total_reps := 0
    dungeons_completed := { e := 0, d := 0, c := 0, b := 0, a := 0, s := 0 }
    bosses_defeated := []
    special_missions_completed := []
    streak_shields := 0
    training_start_time := none }

-- ============== CATALOG ==============

/-- An entry of `BASE_DAILY_EXERCISES`. -/
structure BaseExercise where
  name : String
  base_reps : Nat
  max_reps : Nat
  unit : String
  stat : String
deriving DecidableEq, Repr

def BASE_DAILY_EXERCISES : List BaseExercise :=
  [ { name := "Flexiones", base_reps := 10, max_reps := 100, unit := "repeticiones", stat := "strength" },
    { name := "Sentadillas", base_reps := 10, max_reps := 100, unit := "repeticiones", stat := "endurance" },
    { name := "Abdominales", base_reps := 10, max_reps := 100, unit := "repeticiones", stat := "vitality" },
    { name := "Correr", base_reps := 1, max_reps := 10, unit := "km", stat := "agility" } ]

/-- An entry of `SPECIAL_DUNGEONS`.  `mult10` is the float multiplier
scaled by 10 (all multipliers have one decimal digit). -/
structure Dungeon where
  id : String
  min_level : Nat
  mult10 : Nat
  difficulty : String
  exp : Nat
  gold : Int
deriving DecidableEq, Repr

def SPECIAL_DUNGEONS : List Dungeon :=
  [ { id := "dungeon_prueba_novato", min_level := 1, mult10 := 10, difficulty := "E", exp := 30, gold := 20 },
    { id := "dungeon_cueva_goblins", min_level := 3, mult10 := 12, difficulty := "E", exp := 50, gold := 30 },
    { id := "dungeon_bosque_oscuro", min_level := 5, mult10 := 13, difficulty := "E", exp := 70, gold := 40 },
    { id := "dungeon_mina_abandonada", min_level := 10, mult10 := 15, difficulty := "D", exp := 100, gold := 60 },
    { id := "dungeon_templo_serpiente", min_level := 12, mult10 := 16, difficulty := "D", exp := 130, gold := 80 },
    { id := "dungeon_pantano_veneno", min_level := 15, mult10 := 17, difficulty := "D", exp := 160, gold := 100 },
    { id := "dungeon_ruinas_antiguas", min_level := 18, mult10 := 18, difficulty := "D", exp := 200, gold := 120 },
    { id := "dungeon_fortaleza_hielo", min_level := 25, mult10 := 20, difficulty := "C", exp := 300, gold := 180 },
    { id := "dungeon_volcan_activo", min_level := 28, mult10 := 22, difficulty := "C", exp := 380, gold := 220 },
    { id := "dungeon_cementerio_maldito", min_level := 32, mult10 := 24, difficulty := "C", exp := 450, gold := 280 },
    { id := "dungeon_laboratorio_demonios", min_level := 36, mult10 := 26, difficulty := "C", exp := 550, gold := 350 },
    { id := "dungeon_castillo_vampiro", min_level := 40, mult10 := 30, difficulty := "B", exp := 700, gold := 450 },
    { id := "dungeon_abismo_oscuridad", min_level := 44, mult10 := 33, difficulty := "B", exp := 900, gold := 550 },
    { id := "dungeon_torre_demonio", min_level := 48, mult10 := 36, difficulty := "B", exp := 1100, gold := 700 },
    { id := "dungeon_dimension_caos", min_level := 52, mult10 := 38, difficulty := "B", exp := 1300, gold := 850 },
    { id := "dungeon_palacio_reyes", min_level := 60, mult10 := 40, difficulty := "A", exp := 1800, gold := 1100 },
    { id := "dungeon_templo_gigantes", min_level := 65, mult10 := 45, difficulty := "A", exp := 2200, gold := 1400 },
    { id := "dungeon_santuario_dragon", min_level := 70, mult10 := 50, difficulty := "A", exp := 2800, gold := 1800 },
    { id := "dungeon_trono_sombras", min_level := 75, mult10 := 55, difficulty := "A", exp := 3500, gold := 2200 },
    { id := "dungeon_puerta_infierno", min_level := 80, mult10 := 60, difficulty := "S", exp := 5000, gold := 3000 },
    { id := "dungeon_reino_demonios", min_level := 85, mult10 := 70, difficulty := "S", exp := 7000, gold := 4500 },
    { id := "dungeon_tumba_monarcas", min_level := 90, mult10 := 80, difficulty := "S", exp := 10000, gold := 6000 },
    { id := "dungeon_vacio_absoluto", min_level := 95, mult10 := 100, difficulty := "S", exp := 15000, gold := 10000 } ]

/-- An entry of `SPECIAL_MISSIONS` (the `requirement` payload is only
read by the listing endpoint, never by completion, and is omitted). -/
structure Mission where
  id : String
  min_level : Nat
  exp : Nat
  gold : Int
  shadow : Option String
deriving DecidableEq, Repr

def SPECIAL_MISSIONS : List Mission :=
  [ { id := "mission_despertar", min_level := 1, exp := 200, gold := 100, shadow := none },
    { id := "mission_primer_paso", min_level := 1, exp := 150, gold := 80, shadow := none },
    { id := "mission_resistencia_basica", min_level := 5, exp := 180, gold := 90, shadow := none },
    { id := "mission_cazador_real", min_level := 10, exp := 400, gold := 250, shadow := some "shadow_goblin" },
    { id := "mission_semana_hierro", min_level := 10, exp := 600, gold := 350, shadow := none },
    { id := "mission_dominador_d", min_level := 15, exp := 800, gold := 500, shadow := none },
    { id := "mission_fortaleza_mental", min_level := 20, exp := 1000, gold := 600, shadow := some "shadow_knight" },
    { id := "mission_ascenso_c", min_level := 25, exp := 1500, gold := 900, shadow := some "shadow_mage" },
    { id := "mission_mes_acero", min_level := 25, exp := 3000, gold := 1500, shadow := some "shadow_tank" },
    { id := "mission_conquistador_c", min_level := 30, exp := 2500, gold := 1200, shadow := none },
    { id := "mission_mil_repeticiones", min_level := 35, exp := 2000, gold := 1000, shadow := none },
    { id := "mission_elite_b", min_level := 40, exp := 4000, gold := 2500, shadow := some "shadow_assassin" },
    { id := "mission_leyenda_100", min_level := 40, exp := 10000, gold := 5000, shadow := some "shadow_general" },
    { id := "mission_sung_jinwoo", min_level := 50, exp := 5000, gold := 3000, shadow := some "shadow_beru" },
    { id := "mission_destructor_b", min_level := 50, exp := 6000, gold := 3500, shadow := none },
    { id := "mission_rango_a", min_level := 60, exp := 8000, gold := 5000, shadow := some "shadow_dragon" },
    { id := "mission_aniquilador_a", min_level := 70, exp := 12000, gold := 7000, shadow := some "shadow_demon_lord" },
    { id := "mission_10k_reps", min_level := 60, exp := 8000, gold := 4000, shadow := none },
    { id := "mission_rango_s", min_level := 80, exp := 20000, gold := 12000, shadow := some "shadow_monarch" },
    { id := "mission_aniquilador_s", min_level := 85, exp := 30000, gold := 20000, shadow := some "shadow_sovereign" },
    { id := "mission_ano_acero", min_level := 80, exp := 50000, gold := 30000, shadow := some "shadow_ashborn" } ]

/-- An entry of `WEEKLY_BOSSES`. -/
structure Boss where
  id : String
  min_level : Nat
  difficulty : String
  mult10 : Nat
  exp : Nat
  gold : Int
  shadow : Option String
deriving DecidableEq, Repr

def WEEKLY_BOSSES : List Boss :=
  [ { id := "boss_igris", min_level := 20, difficulty := "C", mult10 := 40, exp := 2000, gold := 1200, shadow := some "shadow_igris" },
    { id := "boss_tusk", min_level := 30, difficulty := "B", mult10 := 50, exp := 4000, gold := 2500, shadow := some "shadow_tusk" },
    { id := "boss_baran", min_level := 50, difficulty := "A", mult10 := 60, exp := 8000, gold := 5000, shadow := some "shadow_baran" },
    { id := "boss_ant_king", min_level := 60, difficulty := "A", mult10 := 70, exp := 12000, gold := 7500, shadow := some "shadow_beru" },
    { id := "boss_legia", min_level := 75, difficulty := "S", mult10 := 80, exp := 20000, gold := 12000, shadow := some "shadow_legia" },
    { id := "boss_querehsha", min_level := 85, difficulty := "S", mult10 := 90, exp := 30000, gold := 18000, shadow := some "shadow_querehsha" },
    { id := "boss_antares", min_level := 95, difficulty := "S", mult10 := 120, exp := 50000, gold := 30000, shadow := some "shadow_antares" } ]

/-- `SHADOWS[id]["rarity"]` (names and stat bonuses are display-only). -/
def shadowRarity (sid : String) : Option String :=
  if sid == "shadow_goblin" then some "common"
  else if sid == "shadow_knight" then some "uncommon"
  else if sid == "shadow_mage" then some "uncommon"
  else if sid == "shadow_tank" then some "rare"
  else if sid == "shadow_assassin" then some "rare"
  else if sid == "shadow_general" then some "epic"
  else if sid == "shadow_igris" then some "epic"
  else if sid == "shadow_tusk" then some "epic"
  else if sid == "shadow_beru" then some "legendary"
  else if sid == "shadow_dragon" then some "legendary"
  else if sid == "shadow_baran" then some "legendary"
  else if sid == "shadow_demon_lord" then some "legendary"
  else if sid == "shadow_monarch" then some "mythic"
  else if sid == "shadow_legia" then some "mythic"
  else if sid == "shadow_querehsha" then some "mythic"
  else if sid == "shadow_sovereign" then some "mythic"
  else if sid == "shadow_ashborn" then some "divine"
  else if sid == "shadow_antares" then some "divine"
  else none

/-- An entry of `PUNISHMENT_QUESTS` (the punishment templates). -/
structure PunishmentTemplate where
  name : String
  exercises : List Exercise
  exp : Nat
deriving DecidableEq, Repr

def PUNISHMENT_QUESTS : List PunishmentTemplate :=
  [ { name := "Castigo: Resistencia Extrema", exercises := [{ name := "Burpees", reps := 50, unit := "repeticiones" }], exp := 30 },
    { name := "Castigo: Fuerza Mental", exercises := [{ name := "Plancha", reps := 5, unit := "minutos" }], exp := 40 },
    { name := "Castigo: Velocidad", exercises := [{ name := "Sprint", reps := 10, unit := "sprints de 100m" }], exp := 35 },
    { name := "Castigo: Core de Acero", exercises := [{ name := "Plancha lateral", reps := 3, unit := "minutos por lado" }], exp := 45 },
    { name := "Castigo: Piernas de Hierro", exercises := [{ name := "Sentadillas con salto", reps := 100, unit := "repeticiones" }], exp := 50 } ]

/-- An entry of `SHOP_ITEMS`: the `effect` dict is flattened into one
optional field per effect key that `buy_item` reads. -/
structure ShopItem where
  id : String
  price : Int
  itemType : String
  effExp : Option Nat := none
  effGold : Option Int := none
  effShield : Option Nat := none
  effTitle : Option String := none
  effStatName : Option String := none
  effStatValue : Option Int := none
deriving DecidableEq, Repr

def SHOP_ITEMS : List ShopItem :=
  [ { id := "potion_exp_1", price := 150, itemType := "consumable", effExp := some 50 },
    { id := "potion_exp_2", price := 500, itemType := "consumable", effExp := some 200 },
    { id := "potion_exp_3", price := 2000, itemType := "consumable", effExp := some 1000 },
    { id := "title_shadow", price := 10000, itemType := "title", effTitle := some "Monarca de las Sombras" },
    { id := "title_hunter", price := 2000, itemType := "title", effTitle := some "Cazador Élite" },
    { id := "title_demon_slayer", price := 5000, itemType := "title", effTitle := some "Exterminador de Demonios" },
    { id := "title_sovereign", price := 25000, itemType := "title", effTitle := some "Soberano" },
    { id := "stat_str", price := 800, itemType := "stat_boost", effStatName := some "strength", effStatValue := some 3 },
    { id := "stat_end", price := 800, itemType := "stat_boost", effStatName := some "endurance", effStatValue := some 3 },
    { id := "stat_agi", price := 800, itemType := "stat_boost", effStatName := some "agility", effStatValue := some 3 },
    { id := "stat_vit", price := 800, itemType := "stat_boost", effStatName := some "vitality", effStatValue := some 3 },
    { id := "streak_protect", price := 1500, itemType := "consumable", effShield := some 1 } ]

/-- An entry of `ACHIEVEMENTS` (names, descriptions and categories are
display-only and omitted; `reward_gold` is the currency grant). -/
structure Achievement where
  id : String
  reward_gold : Int
deriving DecidableEq, Repr

def ACHIEVEMENTS : List Achievement :=
  [ { id := "first_quest", reward_gold := 50 },
    { id := "quests_10", reward_gold := 150 },
    { id := "quests_50", reward_gold := 500 },
    { id := "quests_100", reward_gold := 1000 },
    { id := "quests_500", reward_gold := 5000 },
    { id := "quests_1000", reward_gold := 15000 },
    { id := "level_10", reward_gold := 200 },
    { id := "level_25", reward_gold := 500 },
    { id := "level_40", reward_gold := 1500 },
    { id := "level_50", reward_gold := 3000 },
    { id := "level_60", reward_gold := 5000 },
    { id := "level_80", reward_gold := 10000 },
    { id := "level_100", reward_gold := 25000 },
    { id := "streak_3", reward_gold := 100 },
    { id := "streak_7", reward_gold := 300 },
    { id := "streak_14", reward_gold := 600 },
    { id := "streak_30", reward_gold := 1500 },
    { id := "streak_60", reward_gold := 3000 },
    { id := "streak_100", reward_gold := 5000 },
    { id := "streak_365", reward_gold := 30000 },
    { id := "dungeon_first", reward_gold := 100 },
    { id := "dungeon_e_5", reward_gold := 200 },
    { id := "dungeon_d_5", reward_gold := 400 },
    { id := "dungeon_c_5", reward_gold := 800 },
    { id := "dungeon_b_5", reward_gold := 1500 },
    { id := "dungeon_a_5", reward_gold := 3000 },
    { id := "dungeon_s", reward_gold := 5000 },
    { id := "dungeon_s_10", reward_gold := 15000 },
    { id := "boss_first", reward_gold := 500 },
    { id := "boss_igris", reward_gold := 1000 },
    { id := "boss_beru", reward_gold := 5000 },
    { id := "boss_antares", reward_gold := 25000 },
    { id := "boss_all", reward_gold := 50000 },
    { id := "shadow_first", reward_gold := 200 },
    { id := "shadow_5", reward_gold := 800 },
    { id := "shadow_10", reward_gold := 2000 },
    { id := "shadow_legendary", reward_gold := 3000 },
    { id := "shadow_mythic", reward_gold := 8000 },
    { id := "shadow_divine", reward_gold := 20000 },
    { id := "guild_join", reward_gold := 100 },
    { id := "guild_create", reward_gold := 300 },
    { id := "stats_50", reward_gold := 500 },
    { id := "stats_100", reward_gold := 2000 },
    { id := "stats_all_50", reward_gold := 3000 },
    { id := "reps_1000", reward_gold := 300 },
    { id := "reps_10000", reward_gold := 1500 },
    { id := "reps_100000", reward_gold := 10000 } ]

-- ============== ACHIEVEMENT UNLOCKING ==============

/-- `unlock_achievement` (server.py lines 1064-1076): look the id up in
the catalog; if present, `$addToSet` it into the user's achievement list
and `$inc` the gold by the reward — note the `$inc` is applied whether or
not the id was already in the set. -/
def unlock_achievement (u : User) (aid : String) : User × Option Achievement :=
  match ACHIEVEMENTS.find? (fun a => a.id == aid) with
  | none => (u, none)
  | some a =>
    ({ u with achievements := addToSet u.achievements aid, gold := u.gold + a.reward_gold },
     some a)

/-- Runs a sequence of guarded `unlock_achievement` calls (the
`if <cond>: ach = await unlock_achievement(...); if ach: ...append(ach)`
pattern of `complete_quest` / `upgrade_stat`), collecting the returned
achievements in order. -/
def runUnlocks (u : User) : List (Bool × String) → User × List Achievement
  | [] => (u, [])
  | (c, aid) :: rest =>
    if c then
      match unlock_achievement u aid with
      | (u', some a) =>
        let r := runUnlocks u' rest
        (r.1, a :: r.2)
      | (u', none) => runUnlocks u' rest
    else runUnlocks u rest

-- ============== STREAK UPDATE ==============

/-- The streak recomputation of the daily branch of `complete_quest`
(server.py lines 700-709), with dates as day indices. -/
def update_streak (lastDate : Option Nat) (streak : Nat) (today : Nat) : Nat :=
  let yesterday := today - 1
  if lastDate == some yesterday || lastDate == some today then
    streak + (if lastDate == some today then 0 else 1)
  else
    match lastDate with
    | none => 1
    | some _ => 1  -- streak broken (gap of ≥ 2 days)

-- ============== ACHIEVEMENT CANDIDATES OF complete_quest ==============

/-- The `level_achievements` table local to `complete_quest`. -/
def LEVEL_ACHIEVEMENTS : List (Nat × String) :=
  [(10, "level_10"), (25, "level_25"), (40, "level_40"),
   (50, "level_50"), (60, "level_60"), (80, "level_80"), (100, "level_100")]

/-- The `streak_achievements` table local to `complete_quest`. -/
def STREAK_ACHIEVEMENTS : List (Nat × String) :=
  [(3, "streak_3"), (7, "streak_7"), (14, "streak_14"),
   (30, "streak_30"), (60, "streak_60"), (100, "streak_100"), (365, "streak_365")]

/-- The `reps_achievements` table local to `complete_quest`. -/
def REPS_ACHIEVEMENTS : List (Nat × String) :=
  [(1000, "reps_1000"), (10000, "reps_10000"), (100000, "reps_100000")]

/-- The `dungeon_achievements` dict local to `complete_quest`. -/
def dungeonRankAch (rank : String) : Option (Nat × String) :=
  if rank == "E" then some (5, "dungeon_e_5")
  else if rank == "D" then some (5, "dungeon_d_5")
  else if rank == "C" then some (5, "dungeon_c_5")
  else if rank == "B" then some (5, "dungeon_b_5")
  else if rank == "A" then some (5, "dungeon_a_5")
  else if rank == "S" then some (1, "dungeon_s")
  else none

/-- The `boss_specific` dict local to `complete_quest`. -/
def bossSpecific (qid : String) : Option String :=
  if qid == "boss_igris" then some "boss_igris"
  else if qid == "boss_ant_king" then some "boss_beru"
  else if qid == "boss_antares" then some "boss_antares"
  else none

/-- Quest-count milestone checks of `complete_quest` (lines 866-883).
`quests` is the already-incremented count; guards read the stale
pre-request `achievements` list. -/
def questCands (quests : Nat) (ach : List String) : List (Bool × String) :=
  [(quests == 1, "first_quest"),
   (decide (10 ≤ quests) && !(ach.contains "quests_10"), "quests_10"),
   (decide (50 ≤ quests) && !(ach.contains "quests_50"), "quests_50"),
   (decide (100 ≤ quests) && !(ach.contains "quests_100"), "quests_100"),
   (decide (500 ≤ quests) && !(ach.contains "quests_500"), "quests_500"),
   (decide (1000 ≤ quests) && !(ach.contains "quests_1000"), "quests_1000")]

/-- Level milestone checks (lines 886-893), against the new level. -/
def levelCands (newLevel : Nat) (ach : List String) : List (Bool × String) :=
  LEVEL_ACHIEVEMENTS.map (fun p => (decide (p.1 ≤ newLevel) && !(ach.contains p.2), p.2))

/-- Streak milestone checks (lines 896-905): only on daily completions,
and — crucially — against the *stale* pre-request streak value. -/
def streakCands (isDaily : Bool) (staleStreak : Nat) (ach : List String) :
    List (Bool × String) :=
  if isDaily then
    STREAK_ACHIEVEMENTS.map (fun p => (decide (p.1 ≤ staleStreak) && !(ach.contains p.2), p.2))
  else []

/-- Total-repetition milestone checks (lines 908-912). -/
def repsCands (newReps : Nat) (ach : List String) : List (Bool × String) :=
  REPS_ACHIEVEMENTS.map (fun p => (decide (p.1 ≤ newReps) && !(ach.contains p.2), p.2))

/-- Dungeon milestone checks (lines 915-942), driven by the quest id
prefix and the stale per-difficulty counters. -/
def dungeonCands (qid : String) (u0 : User) : List (Bool × String) :=
  if idStarts qid "dungeon_" then
    match SPECIAL_DUNGEONS.find? (fun d => d.id == qid) with
    | none => []
    | some dungeon =>
      let rank := dungeon.difficulty
      let current_count := getDungeonCount u0.dungeons_completed rank + 1
      [(!(u0.achievements.contains "dungeon_first"), "dungeon_first")]
      ++ (match dungeonRankAch rank with
          | some (need, aid) =>
            [(decide (need ≤ current_count) && !(u0.achievements.contains aid), aid)]
          | none => [])
      ++ (if rank == "S" then
            [(decide (10 ≤ getDungeonCount u0.dungeons_completed "S" + 1)
                && !(u0.achievements.contains "dungeon_s_10"), "dungeon_s_10")]
          else [])
  else []

/-- Boss milestone checks (lines 945-964). -/
def bossCands (qid : String) (u0 : User) : List (Bool × String) :=
  if idStarts qid "boss_" then
    [(!(u0.achievements.contains "boss_first"), "boss_first")]
    ++ (match bossSpecific qid with
        | some aid => [(!(u0.achievements.contains aid), aid)]
        | none => [])
    ++ [(WEEKLY_BOSSES.all (fun b => (u0.bosses_defeated ++ [qid]).contains b.id)
          && !(u0.achievements.contains "boss_all"), "boss_all")]
  else []

/-- Shadow milestone checks (lines 967-992), run only when this
completion earned a shadow. -/
def shadowCands (shadowEarned : Option String) (u0 : User) : List (Bool × String) :=
  match shadowEarned with
  | none => []
  | some sid =>
    let shadows := u0.shadows ++ [sid]
    let shadow_count := shadows.length
    [(shadow_count == 1, "shadow_first"),
     (decide (5 ≤ shadow_count) && !(u0.achievements.contains "shadow_5"), "shadow_5"),
     (decide (10 ≤ shadow_count) && !(u0.achievements.contains "shadow_10"), "shadow_10")]
    ++ (let rarity := (shadowRarity sid).getD "common"
        [(rarity == "legendary" && !(u0.achievements.contains "shadow_legendary"), "shadow_legendary"),
         (rarity == "mythic" && !(u0.achievements.contains "shadow_mythic"), "shadow_mythic"),
         (rarity == "divine" && !(u0.achievements.contains "shadow_divine"), "shadow_divine")])

/-- All achievement checks of `complete_quest` in source order.
`u0` is the stale user snapshot loaded at authentication time (the
`user` dict): every guard reads it, never the freshly written state. -/
def achievementCandidates (u0 : User) (qid : String) (isDaily : Bool)
    (shadowEarned : Option String) (newLevel quests newReps : Nat) :
    List (Bool × String) :=
  questCands quests u0.achievements
  ++ levelCands newLevel u0.achievements
  ++ streakCands isDaily u0.streak u0.achievements
  ++ repsCands newReps u0.achievements
  ++ dungeonCands qid u0
  ++ bossCands qid u0
  ++ shadowCands shadowEarned u0

-- ============== QUEST COMPLETION ==============

/-- Repetition total of a list of daily/punishment exercises
("repeticiones" count raw, "km" converts at 100 per km; other units are
ignored — matching the punishment branch, which only counts
"repeticiones"). -/
def dailyReps (exs : List Exercise) : Nat :=
  exs.foldl
    (fun acc ex =>
      if ex.unit == "repeticiones" then acc + ex.reps
      else if ex.unit == "km" then acc + ex.reps * 100
      else acc) 0

/-- Repetition total for dungeon/boss completions: each base exercise is
scaled by the entry's multiplier (`int(base_reps * multiplier)`, modelled
as `base * mult10 / 10`). -/
def scaledReps (level : Nat) (mult10 : Nat) : Nat :=
  BASE_DAILY_EXERCISES.foldl
    (fun acc ex =>
      let reps := get_training_reps level ex.base_reps ex.max_reps * mult10 / 10
      if ex.unit == "repeticiones" then acc + reps
      else if ex.unit == "km" then acc + reps * 100
      else acc) 0

/-- Repetition total of the punishment branch (lines 793-796): only
"repeticiones" exercises count. -/
def punishmentReps (exs : List Exercise) : Nat :=
  exs.foldl (fun acc ex => if ex.unit == "repeticiones" then acc + ex.reps else acc) 0

/-- Mongo `update_one({"id": quest_id}, {"$set": {"is_completed": True}})`:
marks the first matching stored quest completed. -/
def markCompleted : List DailyQuest → String → List DailyQuest
  | [], _ => []
  | q :: rest, qid =>
    if q.id == qid then { q with is_completed := true } :: rest
    else q :: markCompleted rest qid

/-- Everything the dispatch part of `complete_quest` (lines 677-827)
produces before the common reward/achievement tail runs. -/
structure DispatchOut where
  u : User
  store : List DailyQuest
  exp_reward : Nat
  gold_reward : Int
  reps : Nat
  shadowEarned : Option String
  isDaily : Bool
deriving Repr

/-- The five-way dispatch of `complete_quest`: daily lookup by quest id,
then id-prefix dispatch to dungeon / boss / punishment / mission. -/
def dispatchQuest (u : User) (store : List DailyQuest) (qid : String) (today : Nat) :
    Except String DispatchOut :=
  match store.find? (fun q => q.id == qid) with
  | some daily =>
    if daily.is_completed then Except.error "Misión ya completada"
    else
      let reps := dailyReps daily.exercises
      let newStreak := update_streak u.last_quest_date u.streak today
      let bestStreak := max newStreak u.best_streak
      Except.ok
        { u := { u with streak := newStreak, best_streak := bestStreak,
                        last_quest_date := some today, training_start_time := none }
          store := markCompleted store qid
          exp_reward := daily.exp_reward
          gold_reward := daily.gold_reward
          reps := reps
          shadowEarned := none
          isDaily := true }
  | none =>
    if idStarts qid "dungeon_" then
      match SPECIAL_DUNGEONS.find? (fun d => d.id == qid) with
      | none => Except.error "Mazmorra no encontrada"
      | some dungeon =>
        if u.level < dungeon.min_level then Except.error "Nivel insuficiente"
        else
          Except.ok
            { u := { u with dungeons_completed :=
                      incDungeonCount u.dungeons_completed dungeon.difficulty }
              store := store
              exp_reward := dungeon.exp
              gold_reward := dungeon.gold
              reps := scaledReps u.level dungeon.mult10
              shadowEarned := none
              isDaily := false }
    else if idStarts qid "boss_" then
      match WEEKLY_BOSSES.find? (fun b => b.id == qid) with
      | none => Except.error "Jefe no encontrado"
      | some boss =>
        if u.level < boss.min_level then Except.error "Nivel insuficiente"
        else
          let reps := scaledReps u.level boss.mult10
          match boss.shadow with
          | some s =>
            if u.shadows.contains s then
              Except.ok
                { u := { u with bosses_defeated := addToSet u.bosses_defeated qid }
                  store := store, exp_reward := boss.exp, gold_reward := boss.gold
                  reps := reps, shadowEarned := none, isDaily := false }
            else
              Except.ok
                { u := { u with shadows := addToSet u.shadows s,
                                bosses_defeated := addToSet u.bosses_defeated qid }
                  store := store, exp_reward := boss.exp, gold_reward := boss.gold
                  reps := reps, shadowEarned := some s, isDaily := false }
          | none =>
            Except.ok
              { u := { u with bosses_defeated := addToSet u.bosses_defeated qid }
                store := store, exp_reward := boss.exp, gold_reward := boss.gold
                reps := reps, shadowEarned := none, isDaily := false }
    else if idStarts qid "punishment_" then
      match u.punishment_quests.find? (fun p => p.id == qid) with
      | none => Except.error "Castigo no encontrado"
      | some punishment =>
        Except.ok
          { u := { u with punishment_quests :=
                    u.punishment_quests.filter (fun p => !(p.id == qid)) }
            store := store
            exp_reward := punishment.exp_reward
            gold_reward := 0
            reps := punishmentReps punishment.exercises
            shadowEarned := none
            isDaily := false }
    else if idStarts qid "mission_" then
      match SPECIAL_MISSIONS.find? (fun m => m.id == qid) with
      | none => Except.error "Misión especial no encontrada"
      | some mission =>
        if u.special_missions_completed.contains qid then
          Except.error "Misión ya completada"
        else
          match mission.shadow with
          | some s =>
            if u.shadows.contains s then
              Except.ok
                { u := { u with special_missions_completed :=
                          addToSet u.special_missions_completed qid }
                  store := store, exp_reward := mission.exp, gold_reward := mission.gold
                  reps := 0, shadowEarned := none, isDaily := false }
            else
              Except.ok
                { u := { u with shadows := addToSet u.shadows s,
                                special_missions_completed :=
                                  addToSet u.special_missions_completed qid }
                  store := store, exp_reward := mission.exp, gold_reward := mission.gold
                  reps := 0, shadowEarned := some s, isDaily := false }
          | none =>
            Except.ok
              { u := { u with special_missions_completed :=
                        addToSet u.special_missions_completed qid }
                store := store, exp_reward := mission.exp, gold_reward := mission.gold
                reps := 0, shadowEarned := none, isDaily := false }
    else Except.error "Misión no encontrada"

/-- The response payload of `complete_quest` (lines 994-1007);
`shadow_earned` is modelled by the shadow id. -/
structure CompleteResult where
  exp_gained : Nat
  gold_gained : Int
  new_level : Nat
  new_exp : Nat
  exp_to_next : Nat
  new_rank : String
  stat_points_gained : Nat
  level_up : Bool
  achievements_unlocked : List Achievement
  shadow_earned : Option String
  reps_gained : Nat
deriving Repr

/-- The common tail of `complete_quest` (lines 829-1007): cascade the
reward experience, recompute the rank, bump the counters, evaluate
achievements (guards against the stale snapshot `u0`), and build the
response payload. -/
def finishQuest (u0 : User) (qid : String) (d : DispatchOut) :
    User × List DailyQuest × CompleteResult :=
  let cascade := applyExpGain (u0.experience + d.exp_reward) u0.level
  let new_exp := cascade.1
  let new_level := cascade.2.1
  let stat_points_gained := cascade.2.2
  let new_rank := calculate_rank new_level
  let quests_completed := u0.quests_completed + 1
  let new_total_reps := u0.total_reps + d.reps
  let u2 :=
    { d.u with
        experience := new_exp
        level := new_level
        rank := new_rank
        gold := d.u.gold + d.gold_reward
        stat_points := d.u.stat_points + (stat_points_gained : Int)
        quests_completed := d.u.quests_completed + 1
        total_reps := d.u.total_reps + d.reps }
  let unlocks := runUnlocks u2
    (achievementCandidates u0 qid d.isDaily d.shadowEarned new_level quests_completed
      new_total_reps)
  (unlocks.1, d.store,
    { exp_gained := d.exp_reward
      gold_gained := d.gold_reward
      new_level := new_level
      new_exp := new_exp
      exp_to_next := calculate_exp_needed new_level
      new_rank := new_rank
      stat_points_gained := stat_points_gained
      level_up := decide (u0.level < new_level)
      achievements_unlocked := unlocks.2
      shadow_earned := d.shadowEarned
      reps_gained := d.reps })

/-- `complete_quest` (server.py lines 673-1007): the whole
`POST /quests/complete` handler as a state transformer. -/
def complete_quest (u : User) (store : List DailyQuest) (qid : String) (today : Nat) :
    Except String (User × List DailyQuest × CompleteResult) :=
  match dispatchQuest u store qid today with
  | Except.error e => Except.error e
  | Except.ok d => Except.ok (finishQuest u qid d)

-- ============== QUEST FAILURE ==============

/-- The response payload of `fail_quest`. -/
structure FailResult where
  exp_lost : Nat
  punishment_assigned : String
  streak_protected : Bool
deriving DecidableEq, Repr

/-- `fail_quest` (server.py lines 1009-1062).  `choice` is the index
drawn by `random.choice(PUNISHMENT_QUESTS)` and `freshId` the freshly
generated `punishment_<uuid>` id; both are inputs of the model.  The 15%
experience penalty `int(user["experience"] * 0.15)` is modelled as
`15 * exp / 100`; `max(0, exp - penalty)` coincides with ℕ subtraction. -/
def fail_quest (u : User) (choice : Nat) (freshId : String) : User × FailResult :=
  let shields := u.streak_shields
  let afterShield :=
    if shields > 0 then ({ u with streak_shields := shields - 1 }, true)
    else ({ u with streak := 0 }, false)
  let u1 := afterShield.1
  let streak_protected := afterShield.2
  let punishment := PUNISHMENT_QUESTS.getD choice
    { name := "", exercises := [], exp := 0 }
  let punishment_quest : PunishmentQuest :=
    { id := freshId, name := punishment.name,
      exercises := punishment.exercises, exp_reward := punishment.exp }
  let exp_penalty := 15 * u.experience / 100
  let new_exp := max 0 (u.experience - exp_penalty)
  let u2 := { u1 with experience := new_exp, training_start_time := none,
                      punishment_quests := u1.punishment_quests ++ [punishment_quest] }
  (u2, { exp_lost := exp_penalty, punishment_assigned := punishment_quest.name,
         streak_protected := streak_protected })

-- ============== SHOP ==============

/-- `buy_item` (server.py lines 1084-1111): deduct the price, then apply
the item's effect.  Note the experience effect is a bare `$inc` —
no cascading level-up, no rank recomputation. -/
def buy_item (u : User) (itemId : String) : Except String User :=
  match SHOP_ITEMS.find? (fun i => i.id == itemId) with
  | none => Except.error "Item no encontrado"
  | some item =>
    if u.gold < item.price then Except.error "Oro insuficiente"
    else
      let u1 := { u with gold := u.gold - item.price }
      let u2 :=
        if item.itemType == "consumable" then
          let ua := match item.effExp with
            | some e => { u1 with experience := u1.experience + e }
            | none => u1
          let ub := match item.effGold with
            | some g => { ua with gold := ua.gold + g }
            | none => ua
          match item.effShield with
            | some n => { ub with streak_shields := ub.streak_shields + n }
            | none => ub
        else if item.itemType == "title" then
          match item.effTitle with
            | some t => { u1 with title := t }
            | none => u1
        else if item.itemType == "stat_boost" then
          match item.effStatName, item.effStatValue with
            | some nm, some v => { u1 with stats := incStat u1.stats nm v }
            | _, _ => u1
        else u1
      Except.ok u2

-- ============== STAT UPGRADE ==============

/-- `upgrade_stat` (server.py lines 455-487): the insufficient-points
check runs first (and a negative `points` always passes it when the
balance is nonnegative), then the stat-name check; `$inc` the stat by
`points`, `$inc` the pool by `-points`, then evaluate the two stat
achievements against the precomputed `new_stat_value` and the stale
achievement list. -/
def upgrade_stat (u : User) (statName : String) (points : Int) :
    Except String (User × List Achievement) :=
  if u.stat_points < points then
    Except.error "No tienes suficientes puntos de estadística"
  else if !(["strength", "endurance", "agility", "vitality"].contains statName) then
    Except.error "Estadística inválida"
  else
    let new_stat_value := getStat u.stats statName + points
    let u1 := { u with stats := incStat u.stats statName points,
                       stat_points := u.stat_points - points }
    let unlocks := runUnlocks u1
      [(decide (50 ≤ new_stat_value) && !(u.achievements.contains "stats_50"), "stats_50"),
       (decide (100 ≤ new_stat_value) && !(u.achievements.contains "stats_100"), "stats_100")]
    Except.ok unlocks

-- ============== DAILY QUEST GENERATION ==============

/-- `get_daily_quests` (server.py lines 491-543): build today's exercise
list from the catalog, return the stored instance for today if one
exists, otherwise persist and return a fresh one with reward
`25 + 2·level` experience and `10 + level` gold. -/
def get_daily_quests (u : User) (store : List DailyQuest) (today : Nat)
    (freshId : String) : DailyQuest × List DailyQuest :=
  let exercises := BASE_DAILY_EXERCISES.map (fun ex =>
    { name := ex.name, reps := get_training_reps u.level ex.base_reps ex.max_reps,
      unit := ex.unit : Exercise })
  match store.find? (fun q => q.date == today) with
  | some existing => (existing, store)
  | none =>
    let quest : DailyQuest :=
      { id := freshId
        date := today
        exercises := exercises
        exp_reward := 25 + u.level * 2
        gold_reward := 10 + (u.level : Int)
        difficulty := calculate_rank u.level
        is_completed := false }
    (quest, store ++ [quest])

-- ============== PRESERVATION LEMMAS ==============

theorem unlock_achievement_preserves (u : User) (aid : String) :
    (unlock_achievement u aid).1.level = u.level ∧
    (unlock_achievement u aid).1.experience = u.experience ∧
    (unlock_achievement u aid).1.rank = u.rank ∧
    (unlock_achievement u aid).1.shadows = u.shadows ∧
    (unlock_achievement u aid).1.streak = u.streak ∧
    (unlock_achievement u aid).1.best_streak = u.best_streak ∧
    (unlock_achievement u aid).1.stats = u.stats ∧
    (unlock_achievement u aid).1.stat_points = u.stat_points := by
  unfold unlock_achievement
  cases ACHIEVEMENTS.find? (fun a => a.id == aid) <;>
    exact ⟨rfl, rfl, rfl, rfl, rfl, rfl, rfl, rfl⟩

theorem runUnlocks_preserves (l : List (Bool × String)) : ∀ u : User,
    (runUnlocks u l).1.level = u.level ∧
    (runUnlocks u l).1.experience = u.experience ∧
    (runUnlocks u l).1.rank = u.rank ∧
    (runUnlocks u l).1.shadows = u.shadows ∧
    (runUnlocks u l).1.streak = u.streak ∧
    (runUnlocks u l).1.best_streak = u.best_streak ∧
    (runUnlocks u l).1.stats = u.stats ∧
    (runUnlocks u l).1.stat_points = u.stat_points := by
  induction l with
  | nil => intro u; exact ⟨rfl, rfl, rfl, rfl, rfl, rfl, rfl, rfl⟩
  | cons p rest ih =>
    intro u
    obtain ⟨c, aid⟩ := p
    show (runUnlocks u ((c, aid) :: rest)).1.level = u.level ∧ _
    simp only [runUnlocks]
    by_cases hc : c
    · subst hc
      simp only [if_true]
      have hp := unlock_achievement_preserves u aid
      cases hu : unlock_achievement u aid with
      | mk u' oa =>
        rw [hu] at hp
        have hrest := ih u'
        cases oa with
        | some a =>
          simp only []
          exact ⟨hrest.1.trans hp.1,
                 hrest.2.1.trans hp.2.1,
                 hrest.2.2.1.trans hp.2.2.1,
                 hrest.2.2.2.1.trans hp.2.2.2.1,
                 hrest.2.2.2.2.1.trans hp.2.2.2.2.1,
                 hrest.2.2.2.2.2.1.trans hp.2.2.2.2.2.1,
                 hrest.2.2.2.2.2.2.1.trans hp.2.2.2.2.2.2.1,
                 hrest.2.2.2.2.2.2.2.trans hp.2.2.2.2.2.2.2⟩
        | none =>
          simp only []
          exact ⟨(ih u').1.trans hp.1,
                 (ih u').2.1.trans hp.2.1,
                 (ih u').2.2.1.trans hp.2.2.1,
                 (ih u').2.2.2.1.trans hp.2.2.2.1,
                 (ih u').2.2.2.2.1.trans hp.2.2.2.2.1,
                 (ih u').2.2.2.2.2.1.trans hp.2.2.2.2.2.1,
                 (ih u').2.2.2.2.2.2.1.trans hp.2.2.2.2.2.2.1,
                 (ih u').2.2.2.2.2.2.2.trans hp.2.2.2.2.2.2.2⟩
    · simp only [if_neg hc]
      exact ih u

theorem runUnlocks_level (u : User) (l : List (Bool × String)) :
    (runUnlocks u l).1.level = u.level := (runUnlocks_preserves l u).1

theorem runUnlocks_experience (u : User) (l : List (Bool × String)) :
    (runUnlocks u l).1.experience = u.experience := (runUnlocks_preserves l u).2.1

theorem runUnlocks_rank (u : User) (l : List (Bool × String)) :
    (runUnlocks u l).1.rank = u.rank := (runUnlocks_preserves l u).2.2.1

theorem runUnlocks_shadows (u : User) (l : List (Bool × String)) :
    (runUnlocks u l).1.shadows = u.shadows := (runUnlocks_preserves l u).2.2.2.1

theorem runUnlocks_streak (u : User) (l : List (Bool × String)) :
    (runUnlocks u l).1.streak = u.streak := (runUnlocks_preserves l u).2.2.2.2.1

theorem runUnlocks_best_streak (u : User) (l : List (Bool × String)) :
    (runUnlocks u l).1.best_streak = u.best_streak := (runUnlocks_preserves l u).2.2.2.2.2.1

theorem runUnlocks_stats (u : User) (l : List (Bool × String)) :
    (runUnlocks u l).1.stats = u.stats := (runUnlocks_preserves l u).2.2.2.2.2.2.1

theorem runUnlocks_stat_points (u : User) (l : List (Bool × String)) :
    (runUnlocks u l).1.stat_points = u.stat_points := (runUnlocks_preserves l u).2.2.2.2.2.2.2

-- ============== THE LEVEL/RANK/EXPERIENCE INVARIANT ==============

/-- The invariant of §3 of the spec: rank is the deterministic image of
the level, and experience is below the next-level threshold. -/
def userInvariant (u : User) : Prop :=
  u.rank = calculate_rank u.level ∧ u.experience < calculate_exp_needed u.level

instance userInvariantDecidable (u : User) : Decidable (userInvariant u) := by
  unfold userInvariant; infer_instance

theorem finishQuest_invariant (u0 : User) (qid : String) (d : DispatchOut) :
    userInvariant (finishQuest u0 qid d).1 := by
  unfold userInvariant
  simp only [finishQuest]
  constructor
  · rw [runUnlocks_rank, runUnlocks_level]
  · rw [runUnlocks_experience, runUnlocks_level]
    exact applyExpGain_lt (u0.experience + d.exp_reward) u0.level

theorem complete_quest_invariant (u : User) (store : List DailyQuest) (qid : String)
    (today : Nat) (out : User × List DailyQuest × CompleteResult)
    (h : complete_quest u store qid today = Except.ok out) : userInvariant out.1 := by
  unfold complete_quest at h
  cases hd : dispatchQuest u store qid today with
  | error e => rw [hd] at h; exact absurd h (by simp)
  | ok d =>
    rw [hd] at h
    simp only [] at h
    injection h with h'
    rw [← h']
    exact finishQuest_invariant u qid d

theorem fail_quest_invariant (u : User) (choice : Nat) (fid : String)
    (hu : userInvariant u) : userInvariant (fail_quest u choice fid).1 := by
  obtain ⟨hrank, hexp⟩ := hu
  unfold fail_quest
  by_cases hs : u.streak_shields > 0
  · simp only [if_pos hs]
    refine ⟨hrank, ?_⟩
    show max 0 (u.experience - 15 * u.experience / 100) < calculate_exp_needed u.level
    omega
  · simp only [if_neg hs]
    refine ⟨hrank, ?_⟩
    show max 0 (u.experience - 15 * u.experience / 100) < calculate_exp_needed u.level
    omega

theorem upgrade_stat_invariant (u : User) (nm : String) (p : Int)
    (out : User × List Achievement) (hu : userInvariant u)
    (h : upgrade_stat u nm p = Except.ok out) : userInvariant out.1 := by
  obtain ⟨hrank, hexp⟩ := hu
  unfold upgrade_stat at h
  split at h
  · exact absurd h (by simp)
  · split at h
    · exact absurd h (by simp)
    · injection h with h'
      rw [← h']
      refine ⟨?_, ?_⟩
      · rw [runUnlocks_rank, runUnlocks_level]; exact hrank
      · rw [runUnlocks_experience, runUnlocks_level]; exact hexp

-- ============== CLAIM C1 ==============

/-- A user reachable from registration by four completions of the level-1
dungeon (gold 330, experience 120) followed by a purchase of the +50 EXP
potion `potion_exp_1`. -/
def c1Trace : Except String User :=
  (complete_quest registerUser [] "dungeon_prueba_novato" 5).bind fun r1 =>
  (complete_quest r1.1 r1.2.1 "dungeon_prueba_novato" 5).bind fun r2 =>
  (complete_quest r2.1 r2.2.1 "dungeon_prueba_novato" 5).bind fun r3 =>
  (complete_quest r3.1 r3.2.1 "dungeon_prueba_novato" 5).bind fun r4 =>
  buy_item r4.1 "potion_exp_1"

/-- **C1** (counterexample): the claimed invariant does *not* hold after a
shop purchase of an experience-granting consumable.  Starting from the
`register` document, completing `dungeon_prueba_novato` four times
(experience 120, gold 330, level 1) and then buying `potion_exp_1`
(+50 EXP) yields a reachable user with `experience = 170 ≥ 150 =
experienceRequired(1)` — `buy_item` increments experience with no
cascading level-up. -/
theorem C1_counterexample :
    (match c1Trace with
     | Except.ok u => decide (userInvariant u)
     | Except.error _ => true) = false := by decide

/-- **C1** (amended): the level/rank/experience invariant holds after
`register`, after every successful `complete_quest`, after `fail_quest`,
and after every successful `upgrade_stat` — but not, in general, after a
shop purchase of an experience-granting consumable (see
`C1_counterexample`); `complete_quest` re-establishes it unconditionally. -/
theorem C1_invariant_amended :
    userInvariant registerUser ∧
    (∀ (u : User) (store : List DailyQuest) (qid : String) (today : Nat)
        (out : User × List DailyQuest × CompleteResult),
        complete_quest u store qid today = Except.ok out → userInvariant out.1) ∧
    (∀ (u : User) (choice : Nat) (fid : String),
        userInvariant u → userInvariant (fail_quest u choice fid).1) ∧
    (∀ (u : User) (nm : String) (p : Int) (out : User × List Achievement),
        userInvariant u → upgrade_stat u nm p = Except.ok out → userInvariant out.1) :=
  ⟨by decide, complete_quest_invariant, fail_quest_invariant, upgrade_stat_invariant⟩

/-- Witness for `C1_invariant_amended` at concrete inputs. -/
theorem C1_invariant_amended_witness :
    userInvariant (fail_quest registerUser 0 "punishment_w1").1 ∧
    userInvariant (registerUser, ([] : List Achievement)).1 :=
  ⟨C1_invariant_amended.2.2.1 registerUser 0 "punishment_w1" (by decide),
   C1_invariant_amended.2.2.2 registerUser "strength" 0 (registerUser, [])
     (by decide) (by rfl)⟩

-- ============== CLAIM C4 ==============

/-- **C4**: the reward-experience cascade is exactly the loop "while
experience ≥ experienceRequired(level): subtract, level += 1, +3 stat
points" (step and stop equations), it is total (the function is defined
for every finite reward) and leaves `experience <
experienceRequired(new level)`; concretely a level-1 user with 0
experience granted 500 experience ends at level 3 with 80 experience
left and 6 stat points gained. -/
theorem C4_cascading_levelup :
    (∀ e l, calculate_exp_needed l ≤ e →
        applyExpGain e l =
          (let r := applyExpGain (e - calculate_exp_needed l) (l + 1)
           (r.1, r.2.1, r.2.2 + 3))) ∧
    (∀ e l, e < calculate_exp_needed l → applyExpGain e l = (e, l, 0)) ∧
    (∀ e l, (applyExpGain e l).1 < calculate_exp_needed (applyExpGain e l).2.1) ∧
    applyExpGain 500 1 = (80, 3, 6) :=
  ⟨applyExpGain_step, applyExpGain_stop, applyExpGain_lt, by decide⟩

/-- Witness for `C4_cascading_levelup` at concrete inputs. -/
theorem C4_cascading_levelup_witness :
    applyExpGain 500 1 =
      (let r := applyExpGain (500 - calculate_exp_needed 1) (1 + 1)
       (r.1, r.2.1, r.2.2 + 3)) ∧
    applyExpGain 100 1 = (100, 1, 0) :=
  ⟨C4_cascading_levelup.1 500 1 (by decide),
   C4_cascading_levelup.2.1 100 1 (by decide)⟩

-- ============== CLAIM C9 ==============

/-- **C9**: `experienceRequired(level) = ⌊150 · 1.8^(level-1)⌋`
(the definition of `calculate_exp_needed`) is strictly increasing in the
level (for levels ≥ 1) and hits the fixed points
`experienceRequired(1) = 150`, `experienceRequired(2) = 270`. -/
theorem C9_exp_needed :
    (∀ l, 1 ≤ l → calculate_exp_needed l < calculate_exp_needed (l + 1)) ∧
    calculate_exp_needed 1 = 150 ∧ calculate_exp_needed 2 = 270 :=
  ⟨calculate_exp_needed_strict, by decide, by decide⟩

/-- Witness for `C9_exp_needed` at a concrete level. -/
theorem C9_exp_needed_witness :
    calculate_exp_needed 3 < calculate_exp_needed 4 :=
  C9_exp_needed.1 3 (by decide)

-- ============== CLAIM C2 ==============

/-- **C2** (counterexample): invoking `unlock_achievement` a second time
with an id already in the achievement set leaves the set unchanged but
grants the gold reward *again*: `$addToSet` is a no-op, `$inc gold` is
not.  Two invocations for `first_quest` from the register document leave
the set at `["first_quest"]` but raise gold from 150 to 200. -/
theorem C2_counterexample :
    (unlock_achievement (unlock_achievement registerUser "first_quest").1
        "first_quest").1.achievements
      = (unlock_achievement registerUser "first_quest").1.achievements ∧
    (unlock_achievement registerUser "first_quest").1.gold = 150 ∧
    (unlock_achievement (unlock_achievement registerUser "first_quest").1
        "first_quest").1.gold = 200 ∧
    ¬((unlock_achievement (unlock_achievement registerUser "first_quest").1
        "first_quest").1.gold
      = (unlock_achievement registerUser "first_quest").1.gold) := by decide

/-- **C2** (amended): invoking `unlock_achievement` when the id is
already in the user's achievement set leaves the achievement set
unchanged but increments gold by the per-achievement reward once more;
the reward is granted only once in normal operation solely because every
call site first checks membership before invoking the unlock. -/
theorem C2_unlock_amended (u : User) (aid : String) (a : Achievement)
    (hmem : aid ∈ u.achievements)
    (hfind : ACHIEVEMENTS.find? (fun x => x.id == aid) = some a) :
    (unlock_achievement u aid).1.achievements = u.achievements ∧
    (unlock_achievement u aid).1.gold = u.gold + a.reward_gold := by
  unfold unlock_achievement
  rw [hfind]
  refine ⟨?_, rfl⟩
  show addToSet u.achievements aid = u.achievements
  unfold addToSet
  rw [if_pos (List.elem_eq_true_of_mem hmem)]

/-- Witness for `C2_unlock_amended` at a concrete user. -/
theorem C2_unlock_amended_witness :
    (unlock_achievement { registerUser with achievements := ["first_quest"] }
        "first_quest").1.achievements
      = ({ registerUser with achievements := ["first_quest"] } : User).achievements ∧
    (unlock_achievement { registerUser with achievements := ["first_quest"] }
        "first_quest").1.gold
      = ({ registerUser with achievements := ["first_quest"] } : User).gold
          + ({ id := "first_quest", reward_gold := 50 } : Achievement).reward_gold :=
  C2_unlock_amended { registerUser with achievements := ["first_quest"] }
    "first_quest" { id := "first_quest", reward_gold := 50 } (by decide) (by rfl)

-- ============== CLAIM C6 ==============

/-- **C6**: `fail_quest` behaves as specified: with at least one
streak-shield, exactly one shield is consumed and the streak is
untouched; with none, the streak resets to 0.  In both cases the
experience drops by `⌊0.15 · experience⌋` (clamped at ≥ 0 — automatic in
ℕ), the training-session timestamp is cleared, and exactly one punishment
quest — the template selected by `random.choice`, instantiated with the
fresh id — is appended to the pending punishment list. -/
theorem C6_fail_quest (u : User) (choice : Nat) (fid : String)
    (hc : choice < PUNISHMENT_QUESTS.length) :
    (0 < u.streak_shields →
        (fail_quest u choice fid).1.streak_shields = u.streak_shields - 1 ∧
        (fail_quest u choice fid).1.streak = u.streak ∧
        (fail_quest u choice fid).2.streak_protected = true) ∧
    (u.streak_shields = 0 →
        (fail_quest u choice fid).1.streak = 0 ∧
        (fail_quest u choice fid).1.streak_shields = 0 ∧
        (fail_quest u choice fid).2.streak_protected = false) ∧
    (fail_quest u choice fid).1.experience = u.experience - 15 * u.experience / 100 ∧
    (fail_quest u choice fid).2.exp_lost = 15 * u.experience / 100 ∧
    (fail_quest u choice fid).1.training_start_time = none ∧
    (fail_quest u choice fid).1.punishment_quests =
      u.punishment_quests ++
        [{ id := fid,
           name := (PUNISHMENT_QUESTS.get ⟨choice, hc⟩).name,
           exercises := (PUNISHMENT_QUESTS.get ⟨choice, hc⟩).exercises,
           exp_reward := (PUNISHMENT_QUESTS.get ⟨choice, hc⟩).exp }] := by
  have hgetD : PUNISHMENT_QUESTS.getD choice { name := "", exercises := [], exp := 0 }
      = PUNISHMENT_QUESTS.get ⟨choice, hc⟩ := by
    rw [List.getD_eq_getElem?_getD, List.getElem?_eq_getElem hc, Option.getD_some]
    rfl
  by_cases hs : u.streak_shields > 0
  · simp only [fail_quest, if_pos hs, hgetD, Nat.zero_max]
    exact ⟨fun _ => ⟨trivial, trivial, trivial⟩, fun h0 => absurd h0 (by omega),
      trivial, trivial, trivial, trivial⟩
  · simp only [fail_quest, if_neg hs, hgetD, Nat.zero_max]
    refine ⟨fun h0 => absurd h0 (by omega), fun _ => ⟨trivial, ?_, trivial⟩,
      trivial, trivial, trivial, trivial⟩
    omega

/-- Witness for `C6_fail_quest` at the spec's example users
(streak 5 with one shield, streak 5 with none). -/
theorem C6_fail_quest_witness :
    (fail_quest { registerUser with streak := 5, streak_shields := 1 } 0
        "punishment_w2").1.streak = 5 ∧
    (fail_quest { registerUser with streak := 5, streak_shields := 1 } 0
        "punishment_w2").1.streak_shields = 0 ∧
    (fail_quest { registerUser with streak := 5 } 0 "punishment_w3").1.streak = 0 := by
  have h1 := C6_fail_quest { registerUser with streak := 5, streak_shields := 1 } 0
    "punishment_w2" (by decide)
  have h2 := C6_fail_quest { registerUser with streak := 5 } 0 "punishment_w3" (by decide)
  obtain ⟨ha, -⟩ := h1
  obtain ⟨-, hb, -⟩ := h2
  obtain ⟨hs1, hs2, -⟩ := ha (by decide)
  obtain ⟨hb1, -⟩ := hb (by decide)
  exact ⟨hs2, hs1, hb1⟩

-- ============== CLAIM C7 ==============

theorem update_streak_yesterday (s today : Nat) (ht : 1 ≤ today) :
    update_streak (some (today - 1)) s today = s + 1 := by
  unfold update_streak
  have hne : ¬(today - 1 = today) := by omega
  simp [hne]

theorem update_streak_today (s today : Nat) :
    update_streak (some today) s today = s := by
  unfold update_streak
  by_cases h : today - 1 = today
  · simp [h]
  · simp [h]

theorem update_streak_none (s today : Nat) : update_streak none s today = 1 := by
  unfold update_streak
  simp

theorem update_streak_gap (s today d : Nat) (hd1 : d ≠ today - 1) (hd2 : d ≠ today) :
    update_streak (some d) s today = 1 := by
  unfold update_streak
  simp [hd1, hd2]

theorem complete_quest_daily_streak (u : User) (store : List DailyQuest) (qid : String)
    (today : Nat) (dq : DailyQuest) (out : User × List DailyQuest × CompleteResult)
    (hfound : store.find? (fun q => q.id == qid) = some dq)
    (hnc : dq.is_completed = false)
    (h : complete_quest u store qid today = Except.ok out) :
    out.1.streak = update_streak u.last_quest_date u.streak today ∧
    out.1.best_streak = max u.best_streak (update_streak u.last_quest_date u.streak today) := by
  unfold complete_quest dispatchQuest at h
  rw [hfound] at h
  simp only [hnc, Bool.false_eq_true, if_false] at h
  injection h with h'
  rw [← h']
  simp only [finishQuest]
  constructor
  · rw [runUnlocks_streak]
  · rw [runUnlocks_best_streak]
    show max (update_streak u.last_quest_date u.streak today) u.best_streak = _
    exact Nat.max_comm _ _

/-- **C7**: on a daily-quest completion the streak follows exactly the
case split on the stored last-quest date — yesterday → +1, today →
unchanged, unset → 1, any other date → reset to 1 — and the best streak
becomes the maximum of its old value and the new streak.  The last
conjunct ties the stored fields of a successful daily completion to
`update_streak`. -/
theorem C7_streak_update (s today : Nat) (ht : 1 ≤ today) :
    update_streak (some (today - 1)) s today = s + 1 ∧
    update_streak (some today) s today = s ∧
    update_streak none s today = 1 ∧
    (∀ d, d ≠ today - 1 → d ≠ today → update_streak (some d) s today = 1) ∧
    (∀ (u : User) (store : List DailyQuest) (qid : String) (dq : DailyQuest)
        (out : User × List DailyQuest × CompleteResult),
        store.find? (fun q => q.id == qid) = some dq → dq.is_completed = false →
        complete_quest u store qid today = Except.ok out →
        out.1.streak = update_streak u.last_quest_date u.streak today ∧
        out.1.best_streak
          = max u.best_streak (update_streak u.last_quest_date u.streak today)) :=
  ⟨update_streak_yesterday s today ht, update_streak_today s today,
   update_streak_none s today, update_streak_gap s today,
   fun u store qid dq out hf hn h => complete_quest_daily_streak u store qid today dq out hf hn h⟩

/-- Witness for `C7_streak_update` at concrete inputs. -/
theorem C7_streak_update_witness :
    update_streak (some 1) 5 2 = 5 + 1 ∧
    update_streak (some 2) 5 2 = 5 ∧
    update_streak (some 0) 5 3 = 1 :=
  ⟨(C7_streak_update 5 2 (by decide)).1,
   (C7_streak_update 5 2 (by decide)).2.1,
   (C7_streak_update 5 3 (by decide)).2.2.2.1 0 (by decide) (by decide)⟩

-- ============== CLAIM C8 ==============

/-- **C8**: daily-quest fetch is idempotent per date: when no instance is
stored for today, the fetch persists exactly one instance whose reward is
`25 + 2·level` experience and `10 + level` gold, and every later fetch on
the same date (by any snapshot of the user) returns that stored instance
with the store unchanged. -/
theorem C8_daily_fetch (u : User) (store : List DailyQuest) (today : Nat) (fid : String)
    (habs : store.find? (fun q => q.date == today) = none) :
    (get_daily_quests u store today fid).1.exp_reward = 25 + u.level * 2 ∧
    (get_daily_quests u store today fid).1.gold_reward = 10 + (u.level : Int) ∧
    (get_daily_quests u store today fid).2
      = store ++ [(get_daily_quests u store today fid).1] ∧
    (get_daily_quests u store today fid).2.countP (fun q => q.date == today) = 1 ∧
    (∀ (u' : User) (fid2 : String),
        get_daily_quests u' (get_daily_quests u store today fid).2 today fid2
          = ((get_daily_quests u store today fid).1,
             (get_daily_quests u store today fid).2)) := by
  have hcount0 : store.countP (fun q => q.date == today) = 0 :=
    List.countP_eq_zero.mpr (List.find?_eq_none.mp habs)
  refine ⟨?_, ?_, ?_, ?_, ?_⟩
  · simp only [get_daily_quests, habs]
  · simp only [get_daily_quests, habs]
  · simp only [get_daily_quests, habs]
  · simp only [get_daily_quests, habs]
    rw [List.countP_append, hcount0]
    simp [List.countP_cons]
  · intro u' fid2
    simp only [get_daily_quests, habs]
    rw [List.find?_append, habs]
    simp [List.find?_cons]

/-- Witness for `C8_daily_fetch` from an empty store. -/
theorem C8_daily_fetch_witness :
    (get_daily_quests registerUser [] 3 "dq_w1").1.exp_reward
        = 25 + registerUser.level * 2 ∧
    get_daily_quests registerUser (get_daily_quests registerUser [] 3 "dq_w1").2 3 "dq_w2"
      = ((get_daily_quests registerUser [] 3 "dq_w1").1,
         (get_daily_quests registerUser [] 3 "dq_w1").2) :=
  ⟨(C8_daily_fetch registerUser [] 3 "dq_w1" (by rfl)).1,
   (C8_daily_fetch registerUser [] 3 "dq_w1" (by rfl)).2.2.2.2 registerUser "dq_w2"⟩

-- ============== CLAIM C10 ==============

theorem getStat_incStat (st : Stats) (nm : String) (v : Int)
    (hnm : nm ∈ ["strength", "endurance", "agility", "vitality"]) :
    getStat (incStat st nm v) nm = getStat st nm + v := by
  fin_cases hnm <;> rfl

/-- **C10**: for every recognized stat name and every negative `points`
value, `upgrade_stat` succeeds — the insufficient-points guard
`stat_points < points` cannot fire when the balance is nonnegative — and
it adds `points` to the named stat (i.e. decreases it by `|points|`) while
subtracting `points` from the pool (i.e. increasing it by `|points|`):
the endpoint admits an undocumented inverse operation converting stats
back into points. -/
theorem C10_negative_upgrade (u : User) (nm : String) (p : Int)
    (hneg : p < 0) (hnn : 0 ≤ u.stat_points)
    (hnm : nm ∈ ["strength", "endurance", "agility", "vitality"]) :
    (upgrade_stat u nm p).map (fun out => (getStat out.1.stats nm, out.1.stat_points))
      = Except.ok (getStat u.stats nm + p, u.stat_points - p) := by
  have h1 : ¬(u.stat_points < p) := by omega
  have h2 : (["strength", "endurance", "agility", "vitality"].contains nm) = true :=
    List.elem_eq_true_of_mem hnm
  unfold upgrade_stat
  rw [if_neg h1]
  simp only [h2, Bool.not_true, Bool.false_eq_true, if_false, Except.map]
  rw [runUnlocks_stats, runUnlocks_stat_points, getStat_incStat u.stats nm p hnm]

/-- Witness for `C10_negative_upgrade`: spending `-5` points on strength
from the register document succeeds, lowers strength by 5 and raises the
pool by 5. -/
theorem C10_negative_upgrade_witness :
    (upgrade_stat registerUser "strength" (-5)).map
        (fun out => (getStat out.1.stats "strength", out.1.stat_points))
      = Except.ok (getStat registerUser.stats "strength" + (-5),
                   registerUser.stat_points - (-5)) :=
  C10_negative_upgrade registerUser "strength" (-5) (by decide) (by decide) (by decide)

-- ============== CLAIM C5 ==============

theorem boss_id_facts : ∀ b ∈ WEEKLY_BOSSES,
    idStarts b.id "dungeon_" = false ∧ idStarts b.id "boss_" = true := by decide

theorem mission_id_facts : ∀ m ∈ SPECIAL_MISSIONS,
    idStarts m.id "dungeon_" = false ∧ idStarts m.id "boss_" = false ∧
    idStarts m.id "punishment_" = false ∧ idStarts m.id "mission_" = true := by decide

/-- `u` already owns whatever shadow the boss matching `qid` rewards. -/
def ownsBossShadow (u : User) (qid : String) : Bool :=
  match WEEKLY_BOSSES.find? (fun b => b.id == qid) with
  | some b =>
    match b.shadow with
    | some s => u.shadows.contains s
    | none => false
  | none => false

/-- `u` already owns whatever shadow the special mission matching `qid`
rewards. -/
def ownsMissionShadow (u : User) (qid : String) : Bool :=
  match SPECIAL_MISSIONS.find? (fun m => m.id == qid) with
  | some m =>
    match m.shadow with
    | some s => u.shadows.contains s
    | none => false
  | none => false

/-- The completion either failed (no state change) or left the owned
shadow list at the same size. -/
def shadowsLenPreserved (u : User)
    (r : Except String (User × List DailyQuest × CompleteResult)) : Bool :=
  match r with
  | Except.ok out => out.1.shadows.length == u.shadows.length
  | Except.error _ => true

theorem finishQuest_shadows (u0 : User) (qid : String) (d : DispatchOut) :
    (finishQuest u0 qid d).1.shadows = d.u.shadows := by
  simp only [finishQuest]
  rw [runUnlocks_shadows]

theorem dispatch_shadows_boss (u : User) (store : List DailyQuest) (qid : String)
    (today : Nat) (d : DispatchOut) (b : Boss)
    (hfind : WEEKLY_BOSSES.find? (fun x => x.id == qid) = some b)
    (hown : ∀ s, b.shadow = some s → u.shadows.contains s = true)
    (hd : dispatchQuest u store qid today = Except.ok d) :
    d.u.shadows = u.shadows := by
  have hbeq : (b.id == qid) = true :=
    @List.find?_some Boss (fun x => x.id == qid) b WEEKLY_BOSSES hfind
  have hqid : b.id = qid := eq_of_beq hbeq
  have hmem : b ∈ WEEKLY_BOSSES := List.mem_of_find?_eq_some hfind
  obtain ⟨hpd, hpb⟩ := boss_id_facts b hmem
  rw [hqid] at hpd hpb
  have hnd : idStarts qid "dungeon_" ≠ true := by rw [hpd]; exact Bool.false_ne_true
  unfold dispatchQuest at hd
  split at hd
  · -- store.find? matched a stored daily quest
    split at hd
    · exact absurd hd (by simp)
    · injection hd with h1
      rw [← h1]
  · -- no stored daily quest: prefix dispatch
    rw [if_neg hnd, if_pos hpb, hfind] at hd
    simp only [] at hd
    split at hd
    · exact absurd hd (by simp)
    · cases hsh : b.shadow with
      | some s =>
        rw [hsh] at hd
        simp only [] at hd
        rw [if_pos (hown s hsh)] at hd
        injection hd with h1
        rw [← h1]
      | none =>
        rw [hsh] at hd
        simp only [] at hd
        injection hd with h1
        rw [← h1]

theorem dispatch_shadows_mission (u : User) (store : List DailyQuest) (qid : String)
    (today : Nat) (d : DispatchOut) (m : Mission)
    (hfind : SPECIAL_MISSIONS.find? (fun x => x.id == qid) = some m)
    (hown : ∀ s, m.shadow = some s → u.shadows.contains s = true)
    (hd : dispatchQuest u store qid today = Except.ok d) :
    d.u.shadows = u.shadows := by
  have hbeq : (m.id == qid) = true :=
    @List.find?_some Mission (fun x => x.id == qid) m SPECIAL_MISSIONS hfind
  have hqid : m.id = qid := eq_of_beq hbeq
  have hmem : m ∈ SPECIAL_MISSIONS := List.mem_of_find?_eq_some hfind
  obtain ⟨hpd, hpb, hpp, hpm⟩ := mission_id_facts m hmem
  rw [hqid] at hpd hpb hpp hpm
  have hnd : idStarts qid "dungeon_" ≠ true := by rw [hpd]; exact Bool.false_ne_true
  have hnb : idStarts qid "boss_" ≠ true := by rw [hpb]; exact Bool.false_ne_true
  have hnp : idStarts qid "punishment_" ≠ true := by rw [hpp]; exact Bool.false_ne_true
  unfold dispatchQuest at hd
  split at hd
  · -- store.find? matched a stored daily quest
    split at hd
    · exact absurd hd (by simp)
    · injection hd with h1
      rw [← h1]
  · -- no stored daily quest: prefix dispatch
    rw [if_neg hnd, if_neg hnb, if_neg hnp, if_pos hpm, hfind] at hd
    simp only [] at hd
    split at hd
    · exact absurd hd (by simp)
    · cases hsh : m.shadow with
      | some s =>
        rw [hsh] at hd
        simp only [] at hd
        rw [if_pos (hown s hsh)] at hd
        injection hd with h1
        rw [← h1]
      | none =>
        rw [hsh] at hd
        simp only [] at hd
        injection hd with h1
        rw [← h1]

/-- **C5**: a shadow is granted at most once per user: completing any
boss or special mission whose reward shadow the user already owns leaves
the owned-shadow list at the same size (errors leave the state
untouched); in particular defeating the same boss a second time adds no
shadow. -/
theorem C5_shadow_once :
    (∀ (u : User) (store : List DailyQuest) (qid : String) (today : Nat),
        ownsBossShadow u qid = true →
        shadowsLenPreserved u (complete_quest u store qid today) = true) ∧
    (∀ (u : User) (store : List DailyQuest) (qid : String) (today : Nat),
        ownsMissionShadow u qid = true →
        shadowsLenPreserved u (complete_quest u store qid today) = true) := by
  constructor
  · intro u store qid today h
    unfold ownsBossShadow at h
    cases hfind : WEEKLY_BOSSES.find? (fun b => b.id == qid) with
    | none => rw [hfind] at h; exact absurd h (by simp)
    | some b =>
      rw [hfind] at h
      simp only [] at h
      have hown : ∀ s, b.shadow = some s → u.shadows.contains s = true := by
        intro s hs
        rw [hs] at h
        exact h
      unfold complete_quest
      cases hd : dispatchQuest u store qid today with
      | error e => rfl
      | ok d =>
        show shadowsLenPreserved u (Except.ok (finishQuest u qid d)) = true
        show ((finishQuest u qid d).1.shadows.length == u.shadows.length) = true
        rw [finishQuest_shadows, dispatch_shadows_boss u store qid today d b hfind hown hd]
        exact beq_self_eq_true _
  · intro u store qid today h
    unfold ownsMissionShadow at h
    cases hfind : SPECIAL_MISSIONS.find? (fun m => m.id == qid) with
    | none => rw [hfind] at h; exact absurd h (by simp)
    | some m =>
      rw [hfind] at h
      simp only [] at h
      have hown : ∀ s, m.shadow = some s → u.shadows.contains s = true := by
        intro s hs
        rw [hs] at h
        exact h
      unfold complete_quest
      cases hd : dispatchQuest u store qid today with
      | error e => rfl
      | ok d =>
        show shadowsLenPreserved u (Except.ok (finishQuest u qid d)) = true
        show ((finishQuest u qid d).1.shadows.length == u.shadows.length) = true
        rw [finishQuest_shadows, dispatch_shadows_mission u store qid today d m hfind hown hd]
        exact beq_self_eq_true _

/-- Witness for `C5_shadow_once`: a level-20 hunter who owns
`shadow_igris` re-defeats `boss_igris`; a hunter who owns
`shadow_goblin` completes `mission_cazador_real`. -/
theorem C5_shadow_once_witness :
    shadowsLenPreserved { registerUser with level := 20, shadows := ["shadow_igris"] }
      (complete_quest { registerUser with level := 20, shadows := ["shadow_igris"] }
        [] "boss_igris" 1) = true ∧
    shadowsLenPreserved { registerUser with shadows := ["shadow_goblin"] }
      (complete_quest { registerUser with shadows := ["shadow_goblin"] }
        [] "mission_cazador_real" 1) = true :=
  ⟨C5_shadow_once.1 { registerUser with level := 20, shadows := ["shadow_igris"] }
      [] "boss_igris" 1 (by decide),
   C5_shadow_once.2 { registerUser with shadows := ["shadow_goblin"] }
      [] "mission_cazador_real" 1 (by decide)⟩

-- ============== CLAIM C3 ==============

/-- The achievement ids reported in a completion's result payload
(empty for a failed request). -/
def payloadIds (r : Except String (User × List DailyQuest × CompleteResult)) :
    List String :=
  match r with
  | Except.ok out => out.2.2.achievements_unlocked.map Achievement.id
  | Except.error _ => []

/-- One day in the life of a hunter: fetch today's daily quest, then
complete it. -/
def c3Day (u : User) (store : List DailyQuest) (today : Nat) (fid : String) :
    Except String (User × List DailyQuest × CompleteResult) :=
  let fetched := get_daily_quests u store today fid
  complete_quest u fetched.2 fetched.1.id today

/-- **C3** (counterexample): completing the daily quest on three
consecutive days from registration raises the streak 1 → 2 → 3; the
third completion reaches milestone 3 for the first time, yet `streak_3`
is neither in that completion's result payload nor in the stored
achievement set — the evaluator reads the *pre-completion* streak (2). -/
theorem C3_counterexample :
    ((c3Day registerUser [] 1 "d1").bind fun r1 =>
     (c3Day r1.1 r1.2.1 2 "d2").bind fun r2 =>
     (c3Day r2.1 r2.2.1 3 "d3").map fun r3 =>
       (r2.1.streak, r3.1.streak,
        decide ("streak_3" ∈ r3.2.2.achievements_unlocked.map Achievement.id),
        decide ("streak_3" ∈ r3.1.achievements)))
    = Except.ok (2, 3, false, false) := by rfl

/-- An achievement check fires iff its guard holds and the id exists in
the catalog (`unlock_achievement` returns `None` otherwise). -/
def achLive (p : Bool × String) : Bool :=
  p.1 && (ACHIEVEMENTS.find? (fun a => a.id == p.2)).isSome

theorem runUnlocks_ids (l : List (Bool × String)) : ∀ u : User,
    (runUnlocks u l).2.map Achievement.id = (l.filter achLive).map Prod.snd := by
  induction l with
  | nil => intro u; rfl
  | cons p rest ih =>
    intro u
    obtain ⟨c, aid⟩ := p
    by_cases hc : c
    · subst hc
      simp only [runUnlocks, if_true]
      cases hfind : ACHIEVEMENTS.find? (fun a => a.id == aid) with
      | none =>
        have hu : unlock_achievement u aid = (u, none) := by
          unfold unlock_achievement; rw [hfind]
        rw [hu]
        simp only []
        rw [ih u]
        have hlive : achLive (true, aid) = false := by
          unfold achLive; rw [hfind]; rfl
        rw [List.filter_cons, hlive]
        simp only [Bool.false_eq_true, if_false]
      | some a =>
        have haid : a.id = aid :=
          eq_of_beq (@List.find?_some Achievement (fun x => x.id == aid) a ACHIEVEMENTS hfind)
        have hu : unlock_achievement u aid =
            ({ u with achievements := addToSet u.achievements aid,
                      gold := u.gold + a.reward_gold }, some a) := by
          unfold unlock_achievement; rw [hfind]
        rw [hu]
        simp only [List.map_cons]
        rw [ih _]
        have hlive : achLive (true, aid) = true := by
          unfold achLive; rw [hfind]; rfl
        rw [List.filter_cons, hlive]
        simp only [if_true, List.map_cons, haid]
    · have hcf : c = false := Bool.eq_false_iff.mpr hc
      subst hcf
      simp only [runUnlocks, Bool.false_eq_true, if_false]
      rw [ih u]
      have hlive : achLive (false, aid) = false := by unfold achLive; rfl
      rw [List.filter_cons, hlive]
      simp only [Bool.false_eq_true, if_false]

theorem mem_filterMap_snd {P : Bool × String → Bool} {l : List (Bool × String)}
    {x : String} (h : x ∈ (l.filter P).map Prod.snd) : x ∈ l.map Prod.snd := by
  obtain ⟨p, hp, hpx⟩ := List.mem_map.mp h
  exact List.mem_map.mpr ⟨p, List.mem_of_mem_filter hp, hpx⟩

theorem streak_ids_uniq : ∀ p ∈ STREAK_ACHIEVEMENTS, ∀ q ∈ STREAK_ACHIEVEMENTS,
    p.2 = q.2 → p = q := by decide

theorem streak_ids_live : ∀ p ∈ STREAK_ACHIEVEMENTS,
    (ACHIEVEMENTS.find? (fun a => a.id == p.2)).isSome = true := by decide

theorem streak_ids_not_quest : ∀ p ∈ STREAK_ACHIEVEMENTS,
    p.2 ∉ ["first_quest", "quests_10", "quests_50", "quests_100", "quests_500",
           "quests_1000"] := by decide

theorem streak_ids_not_level : ∀ p ∈ STREAK_ACHIEVEMENTS,
    p.2 ∉ LEVEL_ACHIEVEMENTS.map Prod.snd := by decide

theorem streak_ids_not_reps : ∀ p ∈ STREAK_ACHIEVEMENTS,
    p.2 ∉ REPS_ACHIEVEMENTS.map Prod.snd := by decide

theorem streak_ids_not_dungeon : ∀ p ∈ STREAK_ACHIEVEMENTS,
    p.2 ∉ ["dungeon_first", "dungeon_e_5", "dungeon_d_5", "dungeon_c_5", "dungeon_b_5",
           "dungeon_a_5", "dungeon_s", "dungeon_s_10"] := by decide

theorem streak_ids_not_boss : ∀ p ∈ STREAK_ACHIEVEMENTS,
    p.2 ∉ ["boss_first", "boss_igris", "boss_beru", "boss_antares", "boss_all"] := by
  decide

theorem dungeonRankAch_snd (r : String) (need : Nat) (aid : String)
    (h : dungeonRankAch r = some (need, aid)) :
    aid ∈ ["dungeon_e_5", "dungeon_d_5", "dungeon_c_5", "dungeon_b_5", "dungeon_a_5",
           "dungeon_s"] := by
  unfold dungeonRankAch at h
  repeat' split at h
  all_goals simp_all

theorem bossSpecific_snd (qid aid : String) (h : bossSpecific qid = some aid) :
    aid ∈ ["boss_igris", "boss_beru", "boss_antares"] := by
  unfold bossSpecific at h
  repeat' split at h
  all_goals simp_all

theorem dungeonCands_snd_subset (qid : String) (u : User) (x : String)
    (hx : x ∈ (dungeonCands qid u).map Prod.snd) :
    x ∈ ["dungeon_first", "dungeon_e_5", "dungeon_d_5", "dungeon_c_5", "dungeon_b_5",
         "dungeon_a_5", "dungeon_s", "dungeon_s_10"] := by
  unfold dungeonCands at hx
  split at hx
  · split at hx
    · exact absurd hx (by simp)
    · rename_i dungeon heq
      simp only [] at hx
      rw [List.map_append, List.map_append] at hx
      rcases List.mem_append.mp hx with hx1 | hx2
      · rcases List.mem_append.mp hx1 with h1 | h2
        · simp only [List.map_cons, List.map_nil, List.mem_cons, List.not_mem_nil,
            or_false] at h1
          subst h1; decide
        · rcases hra : dungeonRankAch dungeon.difficulty with - | ⟨need, aid⟩
          · rw [hra] at h2; exact absurd h2 (by simp)
          · rw [hra] at h2
            simp only [List.map_cons, List.map_nil, List.mem_cons, List.not_mem_nil,
              or_false] at h2
            subst h2
            have hmem6 := dungeonRankAch_snd dungeon.difficulty need x hra
            simp only [List.mem_cons, List.not_mem_nil, or_false] at hmem6 ⊢
            tauto
      · split at hx2
        · simp only [List.map_cons, List.map_nil, List.mem_cons, List.not_mem_nil,
            or_false] at hx2
          subst hx2; decide
        · exact absurd hx2 (by simp)
  · exact absurd hx (by simp)

theorem bossCands_snd_subset (qid : String) (u : User) (x : String)
    (hx : x ∈ (bossCands qid u).map Prod.snd) :
    x ∈ ["boss_first", "boss_igris", "boss_beru", "boss_antares", "boss_all"] := by
  unfold bossCands at hx
  split at hx
  · rw [List.map_append, List.map_append] at hx
    rcases List.mem_append.mp hx with hx1 | hx2
    · rcases List.mem_append.mp hx1 with h1 | h2
      · simp only [List.map_cons, List.map_nil, List.mem_cons, List.not_mem_nil,
          or_false] at h1
        subst h1; decide
      · rcases hbs : bossSpecific qid with - | aid
        · rw [hbs] at h2; exact absurd h2 (by simp)
        · rw [hbs] at h2
          simp only [List.map_cons, List.map_nil, List.mem_cons, List.not_mem_nil,
            or_false] at h2
          subst h2
          have hmem3 := bossSpecific_snd qid x hbs
          simp only [List.mem_cons, List.not_mem_nil, or_false] at hmem3 ⊢
          tauto
    · simp only [List.map_cons, List.map_nil, List.mem_cons, List.not_mem_nil,
        or_false] at hx2
      subst hx2; decide
  · exact absurd hx (by simp)

theorem milestone_mem_iff (L : List (Nat × String)) (s : Nat) (ach : List String)
    (m : Nat) (aid : String) (hm : (m, aid) ∈ L)
    (huniq : ∀ p ∈ L, ∀ q ∈ L, p.2 = q.2 → p = q)
    (hlive : (ACHIEVEMENTS.find? (fun a => a.id == aid)).isSome = true) :
    (aid ∈ ((L.map (fun p => (decide (p.1 ≤ s) && !(ach.contains p.2), p.2))).filter
        achLive).map Prod.snd) ↔ (m ≤ s ∧ aid ∉ ach) := by
  constructor
  · intro hx
    obtain ⟨q, hq, hq2⟩ := List.mem_map.mp hx
    obtain ⟨hq3, hq4⟩ := List.mem_filter.mp hq
    obtain ⟨p, hp, hpq⟩ := List.mem_map.mp hq3
    rw [← hpq] at hq2 hq4
    have hp2 : p.2 = aid := hq2
    have hpm : p = (m, aid) := huniq p hp (m, aid) hm hp2
    subst hpm
    unfold achLive at hq4
    simp only [Bool.and_eq_true, decide_eq_true_eq, Bool.not_eq_true'] at hq4
    refine ⟨hq4.1.1, fun hmem => ?_⟩
    have hc2 : ach.contains aid = true := List.elem_eq_true_of_mem hmem
    rw [hq4.1.2] at hc2
    exact Bool.false_ne_true hc2
  · rintro ⟨h1, h2⟩
    apply List.mem_map.mpr
    refine ⟨(decide (m ≤ s) && !(ach.contains aid), aid), ?_, rfl⟩
    apply List.mem_filter.mpr
    refine ⟨List.mem_map.mpr ⟨(m, aid), hm, rfl⟩, ?_⟩
    unfold achLive
    have hcf : ach.contains aid = false := by
      rw [← Bool.not_eq_true]
      intro hcc
      exact h2 (List.mem_of_elem_eq_true hcc)
    simp [h1, hcf, hlive]
    exact h2

theorem complete_daily_payload (u : User) (store : List DailyQuest) (qid : String)
    (today : Nat) (dq : DailyQuest)
    (hfound : store.find? (fun q => q.id == qid) = some dq)
    (hnc : dq.is_completed = false) :
    payloadIds (complete_quest u store qid today)
      = ((achievementCandidates u qid true none
            (applyExpGain (u.experience + dq.exp_reward) u.level).2.1
            (u.quests_completed + 1) (u.total_reps + dailyReps dq.exercises)).filter
          achLive).map Prod.snd := by
  unfold complete_quest dispatchQuest
  rw [hfound]
  simp only [hnc, Bool.false_eq_true, if_false]
  simp only [payloadIds, finishQuest]
  rw [runUnlocks_ids]

/-- **C3** (amended): streak milestone achievements are evaluated against
the *pre-completion* streak snapshot, not the streak resulting from the
action: on a successful daily completion, milestone `m`'s achievement id
appears in the result payload iff the streak *before* the completion was
already ≥ m and the id was not yet unlocked.  Hence the completion that
first raises the streak to `m` does not report the milestone (see
`C3_counterexample`); it unlocks on the next daily completion. -/
theorem C3_streak_amended (u : User) (store : List DailyQuest) (qid : String)
    (today : Nat) (dq : DailyQuest) (m : Nat) (aid : String)
    (hfound : store.find? (fun q => q.id == qid) = some dq)
    (hnc : dq.is_completed = false)
    (hm : (m, aid) ∈ STREAK_ACHIEVEMENTS) :
    aid ∈ payloadIds (complete_quest u store qid today) ↔
      (m ≤ u.streak ∧ aid ∉ u.achievements) := by
  rw [complete_daily_payload u store qid today dq hfound hnc]
  unfold achievementCandidates
  rw [List.filter_append, List.filter_append, List.filter_append, List.filter_append,
      List.filter_append, List.filter_append,
      List.map_append, List.map_append, List.map_append, List.map_append,
      List.map_append, List.map_append]
  have hq : aid ∉ ((questCands (u.quests_completed + 1) u.achievements).filter
      achLive).map Prod.snd := by
    intro hmm
    have h1 := mem_filterMap_snd hmm
    have h2 : (questCands (u.quests_completed + 1) u.achievements).map Prod.snd
        = ["first_quest", "quests_10", "quests_50", "quests_100", "quests_500",
           "quests_1000"] := rfl
    rw [h2] at h1
    exact streak_ids_not_quest (m, aid) hm h1
  have hl : aid ∉ ((levelCands
      (applyExpGain (u.experience + dq.exp_reward) u.level).2.1 u.achievements).filter
      achLive).map Prod.snd := by
    intro hmm
    have h1 := mem_filterMap_snd hmm
    have h2 : (levelCands
        (applyExpGain (u.experience + dq.exp_reward) u.level).2.1 u.achievements).map
          Prod.snd = LEVEL_ACHIEVEMENTS.map Prod.snd := rfl
    rw [h2] at h1
    exact streak_ids_not_level (m, aid) hm h1
  have hr : aid ∉ ((repsCands (u.total_reps + dailyReps dq.exercises)
      u.achievements).filter achLive).map Prod.snd := by
    intro hmm
    have h1 := mem_filterMap_snd hmm
    have h2 : (repsCands (u.total_reps + dailyReps dq.exercises) u.achievements).map
        Prod.snd = REPS_ACHIEVEMENTS.map Prod.snd := rfl
    rw [h2] at h1
    exact streak_ids_not_reps (m, aid) hm h1
  have hd : aid ∉ ((dungeonCands qid u).filter achLive).map Prod.snd := by
    intro hmm
    exact streak_ids_not_dungeon (m, aid) hm
      (dungeonCands_snd_subset qid u aid (mem_filterMap_snd hmm))
  have hb : aid ∉ ((bossCands qid u).filter achLive).map Prod.snd := by
    intro hmm
    exact streak_ids_not_boss (m, aid) hm
      (bossCands_snd_subset qid u aid (mem_filterMap_snd hmm))
  have hsh : ((shadowCands none u).filter achLive).map Prod.snd = ([] : List String) := rfl
  simp only [List.mem_append, iff_false_intro hq, iff_false_intro hl, iff_false_intro hr,
    iff_false_intro hd, iff_false_intro hb, hsh, List.not_mem_nil, false_or, or_false]
  have hstreak : streakCands true u.streak u.achievements
      = STREAK_ACHIEVEMENTS.map
          (fun p => (decide (p.1 ≤ u.streak) && !(u.achievements.contains p.2), p.2)) := rfl
  rw [hstreak]
  exact milestone_mem_iff STREAK_ACHIEVEMENTS u.streak u.achievements m aid hm
    streak_ids_uniq (streak_ids_live (m, aid) hm)

/-- Witness for `C3_streak_amended`: a hunter whose pre-completion streak
is already 3 completes today's daily quest; `streak_3` is reported iff
the pre-completion streak meets the milestone and it is still locked. -/
theorem C3_streak_amended_witness :
    "streak_3" ∈ payloadIds (complete_quest { registerUser with streak := 3 }
        [{ id := "dqw", date := 1, exercises := [], exp_reward := 27, gold_reward := 11,
           difficulty := "E", is_completed := false }] "dqw" 1) ↔
      (3 ≤ ({ registerUser with streak := 3 } : User).streak ∧
       "streak_3" ∉ ({ registerUser with streak := 3 } : User).achievements) :=
  C3_streak_amended { registerUser with streak := 3 }
    [{ id := "dqw", date := 1, exercises := [], exp_reward := 27, gold_reward := 11,
       difficulty := "E", is_completed := false }] "dqw" 1
    { id := "dqw", date := 1, exercises := [], exp_reward := 27, gold_reward := 11,
      difficulty := "E", is_completed := false } 3 "streak_3"
    (by rfl) (by rfl) (by decide)
